import Mathlib

/-!
Verification development for the Leaker-Flow rate limiter and cache manager
(`backend/utils/rate_limiting.py` and `backend/utils/cache.py`).

The Python code is shallowly embedded: stateful methods become explicit
state-passing functions, the Redis client becomes an explicit store value,
and the single `int(time.time())` clock read of a call becomes a `now : Nat`
parameter.  Python `Optional[int]` fields become `Option Nat`; Python
truthiness tests on them (`if config.requests_per_minute:`) are modelled by
`truthyNat`, which treats both `None` and `0` as falsy.
-/

set_option autoImplicit false

/-- Decimal digits of a natural number, fuel-indexed so the definition is
structurally recursive (the wrapper always supplies enough fuel).  Mirrors the
rendering Python's `str(int)` / f-string interpolation performs for the
non-negative bucket indices that appear in keys. -/
def natDigitsAux : Nat → Nat → List Char
  | 0, _ => []
  | fuel + 1, n =>
    if n < 10 then [Nat.digitChar n]
    else natDigitsAux fuel (n / 10) ++ [Nat.digitChar (n % 10)]

/-- Decimal rendering of a natural number (Python `str` of a non-negative int). -/
def natStr (n : Nat) : String := ⟨natDigitsAux (n + 1) n⟩

/-- Python dict assignment `d[k] = v` on an insertion-ordered association
list: an existing key keeps its position, a new key is appended. -/
def assocSet {α : Type} : List (String × α) → String → α → List (String × α)
  | [], k, v => [(k, v)]
  | (k', v') :: rest, k, v =>
    if k' = k then (k, v) :: rest else (k', v') :: assocSet rest k v

/-- Python truthiness of an `Optional[int]`: `None` and `0` are both falsy,
so `if config.requests_per_minute:` runs the block only for a positive limit. -/
def truthyNat : Option Nat → Option Nat
  | some (n + 1) => some (n + 1)
  | _ => none

/-- Redis glob matching (`KEYS pattern`), fuel-indexed: `*` matches any run of
characters, `?` any single character.  Character classes are not modelled
(no pattern in this codebase uses them). -/
def globMatchAux : Nat → List Char → List Char → Bool
  | 0, _, _ => false
  | fuel + 1, pat, s =>
    match pat, s with
    | [], [] => true
    | '*' :: ps, [] => globMatchAux fuel ps []
    | '*' :: ps, c :: cs =>
      globMatchAux fuel ps (c :: cs) || globMatchAux fuel ('*' :: ps) cs
    | '?' :: ps, _ :: cs => globMatchAux fuel ps cs
    | p :: ps, c :: cs => p = c && globMatchAux fuel ps cs
    | _, _ => false

/-- Glob match of a pattern against a key (total fuel bound: each recursive
step strictly decreases the combined length of pattern and subject). -/
def globMatch (pat key : String) : Bool :=
  globMatchAux (pat.length + key.length + 1) pat.data key.data

/-! ## Rate limiting (`backend/utils/rate_limiting.py`) -/

/-- `RateLimitTier`: the closed enumeration of rate limiting tiers. -/
inductive RateLimitTier where
  | ADMIN_ACTIONS
  | APPLICATION_SUBMISSION
  | BILLING_OPERATIONS
  | EMAIL_SERVICES
  | CONTENT_OPERATIONS
  | GENERAL_AUTH
deriving DecidableEq, Repr

/-- The `.value` string of each tier member. -/
def RateLimitTier.value : RateLimitTier → String
  | .ADMIN_ACTIONS => "admin_actions"
  | .APPLICATION_SUBMISSION => "app_submission"
  | .BILLING_OPERATIONS => "billing"
  | .EMAIL_SERVICES => "email"
  | .CONTENT_OPERATIONS => "content"
  | .GENERAL_AUTH => "general_auth"

/-- `RateLimitConfig` attributes after `__init__` ran. -/
structure RateLimitConfig where
  requests_per_minute : Option Nat
  requests_per_hour : Option Nat
  requests_per_day : Option Nat
  burst_limit : Option Nat
deriving DecidableEq, Repr

/-- `RateLimitConfig.__init__`: stores the three window limits unchanged and
sets `self.burst_limit = burst_limit or requests_per_minute` (Python `or`,
so a `None` or `0` argument falls back to `requests_per_minute`). -/
def mkRateLimitConfig (rpm rph rpd burst : Option Nat) : RateLimitConfig :=
  { requests_per_minute := rpm
    requests_per_hour := rph
    requests_per_day := rpd
    burst_limit :=
      match burst with
      | some b => if b = 0 then rpm else some b
      | none => rpm }

/-- The entry of the `RATE_LIMIT_CONFIGS` dict for each tier. -/
def tier_config : RateLimitTier → RateLimitConfig
  | .ADMIN_ACTIONS => mkRateLimitConfig (some 10) (some 50) none (some 5)
  | .APPLICATION_SUBMISSION => mkRateLimitConfig none (some 1) (some 3) (some 1)
  | .BILLING_OPERATIONS => mkRateLimitConfig (some 5) none none (some 3)
  | .EMAIL_SERVICES => mkRateLimitConfig none (some 10) none (some 2)
  | .CONTENT_OPERATIONS => mkRateLimitConfig (some 20) none none (some 10)
  | .GENERAL_AUTH => mkRateLimitConfig (some 15) none none (some 8)

/-- The `RATE_LIMIT_CONFIGS` dict.  It maps every tier, so `.get(tier)`
returns an entry for each member of the enumeration. -/
def RATE_LIMIT_CONFIGS (t : RateLimitTier) : Option RateLimitConfig :=
  some (tier_config t)

/-- The Redis counter state seen by the rate limiter: `counts k` is the
integer at key `k` (0 when the key is absent, matching `INCR` semantics),
`expires k` the TTL in seconds last set on `k` by `EXPIRE`, if any. -/
structure RedisStore where
  counts : String → Nat
  expires : String → Option Nat

/-- Atomic `INCR`: creates an absent key at 1, returns the post-increment
value. -/
def RedisStore.incr (s : RedisStore) (k : String) : Nat × RedisStore :=
  let c := s.counts k + 1
  (c, { s with counts := fun k' => if k' = k then c else s.counts k' })

/-- `EXPIRE key ttl`. -/
def RedisStore.expire (s : RedisStore) (k : String) (ttl : Nat) : RedisStore :=
  { s with expires := fun k' => if k' = k then some ttl else s.expires k' }

/-- `RateLimiter._get_key`: `f"rate_limit:{tier.value}:{identifier}:{window}"`. -/
def get_key (identifier : String) (tier : RateLimitTier) (window : String) : String :=
  "rate_limit:" ++ tier.value ++ ":" ++ identifier ++ ":" ++ window

/-- One entry of the per-window `results` dict built by `_check_redis_limit`
and `_check_local_fallback`. -/
structure WindowData where
  count : Nat
  limit : Nat
  exceeded : Bool
  reset_time : Nat
deriving DecidableEq, Repr

/-- The block repeated for each window in `_check_redis_limit`: `INCR` the
window key, set its expiry when the increment created it, and record count,
limit, exceeded flag and reset time. -/
def windowCheck (s : RedisStore) (key : String) (limit ttl reset : Nat) :
    WindowData × RedisStore :=
  let (count, s) := s.incr key
  let s := if count = 1 then s.expire key ttl else s
  (⟨count, limit, decide (count > limit), reset⟩, s)

/-- `RateLimiter._check_redis_limit`, successful path (no store exception):
checks each configured window in the fixed minute, hour, day order, building
the insertion-ordered `results` dict as a list. -/
def check_redis_limit (identifier : String) (config : RateLimitConfig)
    (tier : RateLimitTier) (current_time : Nat) (s : RedisStore) :
    List (String × WindowData) × RedisStore :=
  let (res1, s1) :=
    match truthyNat config.requests_per_minute with
    | some n =>
      let (d, s') := windowCheck s
        (get_key identifier tier ("min:" ++ natStr (current_time / 60)))
        n 60 ((current_time / 60 + 1) * 60)
      ([("minute", d)], s')
    | none => ([], s)
  let (res2, s2) :=
    match truthyNat config.requests_per_hour with
    | some n =>
      let (d, s') := windowCheck s1
        (get_key identifier tier ("hour:" ++ natStr (current_time / 3600)))
        n 3600 ((current_time / 3600 + 1) * 3600)
      ([("hour", d)], s')
    | none => ([], s1)
  let (res3, s3) :=
    match truthyNat config.requests_per_day with
    | some n =>
      let (d, s') := windowCheck s2
        (get_key identifier tier ("day:" ++ natStr (current_time / 86400)))
        n 86400 ((current_time / 86400 + 1) * 86400)
      ([("day", d)], s')
    | none => ([], s2)
  (res1 ++ res2 ++ res3, s3)

/-- The Redis keys `_check_redis_limit` can touch for one identifier, tier
and clock value (a superset: a window key is only incremented when that
window is configured). -/
def touchedKeys (identifier : String) (tier : RateLimitTier) (current_time : Nat) :
    List String :=
  [get_key identifier tier ("min:" ++ natStr (current_time / 60)),
   get_key identifier tier ("hour:" ++ natStr (current_time / 3600)),
   get_key identifier tier ("day:" ++ natStr (current_time / 86400))]

/-- The in-process fallback dictionary `RateLimiter._local_fallback`:
client identifier to (bucket key to count), insertion ordered. -/
abbrev LocalFallback : Type := List (String × List (String × Nat))

/-- `int(k.split('_')[-1])`: the bucket index encoded at the end of a local
fallback key.  The keys this is applied to always end in a decimal bucket
(they were produced by `_check_local_fallback` itself), so the defaulted
parse agrees with Python's `int`. -/
def bucketOfKey (k : String) : Nat :=
  (((k.splitOn "_").getLastD "").toNat?).getD 0

/-- The purge predicate of `_check_local_fallback`: a stale minute key of the
same tier (`k.startswith(f"{tier.value}_min_")` with a bucket older than the
current minute). -/
def isOldMinuteKey (tier : RateLimitTier) (current_time : Nat) (k : String) : Bool :=
  k.startsWith (tier.value ++ "_min_") && decide (bucketOfKey k < current_time / 60)

/-- `RateLimiter._check_local_fallback`: minute-granularity only; ensures the
identifier entry exists, creates the current minute bucket (purging stale
same-tier minute buckets) when absent, then increments it. -/
def check_local_fallback (identifier : String) (config : RateLimitConfig)
    (tier : RateLimitTier) (current_time : Nat) (fb : LocalFallback) :
    List (String × WindowData) × LocalFallback :=
  let fb : LocalFallback :=
    if (List.lookup identifier fb).isNone then fb ++ [(identifier, [])] else fb
  let client_data := (List.lookup identifier fb).getD []
  match truthyNat config.requests_per_minute with
  | some n =>
    let minute_key := tier.value ++ "_min_" ++ natStr (current_time / 60)
    let client_data :=
      if (List.lookup minute_key client_data).isNone then
        (client_data.filter fun kv => !isOldMinuteKey tier current_time kv.1)
          ++ [(minute_key, 0)]
      else client_data
    let c := (List.lookup minute_key client_data).getD 0 + 1
    let client_data := assocSet client_data minute_key c
    ([("minute", ⟨c, n, decide (c > n), (current_time / 60 + 1) * 60⟩)],
     assocSet fb identifier client_data)
  | none => ([], fb)

/-- The rejection record returned by `check_rate_limit` when a window is
exceeded. -/
structure RejectInfo where
  exceeded : Bool
  window : String
  count : Nat
  limit : Nat
  reset_time : Nat
  retry_after : Int
deriving DecidableEq, Repr

/-- The `for window, data in results.items()` loop of `check_rate_limit`:
return the first exceeded window's record, with
`retry_after = reset_time - int(time.time())`. -/
def findExceeded (now : Nat) : List (String × WindowData) → Option RejectInfo
  | [] => none
  | (w, d) :: rest =>
    if d.exceeded then
      some ⟨true, w, d.count, d.limit, d.reset_time, (d.reset_time : Int) - (now : Int)⟩
    else findExceeded now rest

/-- The limiter state: the optional Redis client (with its counter store),
whether every Redis operation currently raises (the store-failure mode of the
claims), and the local fallback dictionary. -/
structure RateLimiterState where
  redis_client : Option RedisStore
  redisFails : Bool
  local_fallback : LocalFallback

/-- The body of `check_rate_limit` after the config lookup succeeded: run the
Redis check when a client exists (falling back to local memory when the store
raises — in all-operations-fail mode no Redis increment lands, matching the
`try` block aborting on its first call), else the local fallback; then scan
the results for the first exceeded window. -/
def check_with_config (identifier : String) (config : RateLimitConfig)
    (tier : RateLimitTier) (now : Nat) (st : RateLimiterState) :
    Option RejectInfo × RateLimiterState :=
  match st.redis_client with
  | some rs =>
    if st.redisFails then
      let (results, fb) := check_local_fallback identifier config tier now st.local_fallback
      (findExceeded now results, { st with local_fallback := fb })
    else
      let (results, rs') := check_redis_limit identifier config tier now rs
      (findExceeded now results, { st with redis_client := some rs' })
  | none =>
    let (results, fb) := check_local_fallback identifier config tier now st.local_fallback
    (findExceeded now results, { st with local_fallback := fb })

/-- `RateLimiter.check_rate_limit` for an already-derived client identifier:
`None` when the tier has no config (fail-open) or no window is exceeded,
otherwise the first exceeded window's rejection record. -/
def check_rate_limit (identifier : String) (tier : RateLimitTier) (now : Nat)
    (st : RateLimiterState) : Option RejectInfo × RateLimiterState :=
  match RATE_LIMIT_CONFIGS tier with
  | none => (none, st)
  | some config => check_with_config identifier config tier now st

/-- The abstract request descriptor `_get_client_identifier` reads. -/
structure Request where
  x_forwarded_for : Option String
  client_host : Option String

/-- `RateLimiter._get_client_identifier`: first entry of a non-empty
`X-Forwarded-For` chain, stripped; else the direct client IP; else
`"unknown"`. -/
def get_client_identifier (req : Request) : String :=
  let forwarded_for := req.x_forwarded_for.getD ""
  if forwarded_for ≠ "" then ((forwarded_for.splitOn ",").headD "").trim
  else req.client_host.getD "unknown"

/-- `check_rate_limit` on a request value. -/
def check_rate_limit_request (req : Request) (tier : RateLimitTier) (now : Nat)
    (st : RateLimiterState) : Option RejectInfo × RateLimiterState :=
  check_rate_limit (get_client_identifier req) tier now st

/-- A sequence of `check_rate_limit` calls, each a
(identifier, tier, clock) triple, threading the limiter state. -/
def runCalls (calls : List (String × RateLimitTier × Nat)) (st : RateLimiterState) :
    RateLimiterState :=
  calls.foldl (fun s c => (check_rate_limit c.1 c.2.1 c.2.2 s).2) st

/-! ## Cache manager (`backend/utils/cache.py`) -/

/-- `CacheStrategy` (informational only). -/
inductive CacheStrategy where
  | AGGRESSIVE
  | MODERATE
  | CONSERVATIVE
  | REAL_TIME
deriving DecidableEq, Repr

/-- `CacheConfig`. -/
structure CacheConfig where
  ttl_seconds : Nat
  strategy : CacheStrategy
  compression : Bool
  invalidation_pattern : Option String
deriving DecidableEq, Repr

/-- The `CACHE_CONFIGS` dict (insertion ordered). -/
def CACHE_CONFIGS : List (String × CacheConfig) :=
  [("admin_stats", ⟨300, .AGGRESSIVE, false, some "admin:stats:*"⟩),
   ("article_lists", ⟨180, .MODERATE, false, some "articles:list:*"⟩),
   ("author_data", ⟨600, .MODERATE, false, some "authors:*"⟩),
   ("application_lists", ⟨120, .MODERATE, false, some "applications:*"⟩),
   ("analytics", ⟨900, .AGGRESSIVE, true, some "analytics:*"⟩),
   ("audit_logs", ⟨60, .CONSERVATIVE, false, some "audit:*"⟩),
   ("user_sessions", ⟨30, .REAL_TIME, false, some "sessions:*"⟩)]

/-- The Python values the cache handles: `None`, booleans, (unbounded)
integers, strings, lists, string-keyed dicts (insertion ordered), and
datetime-like objects represented by the string their `str()` produces.
Floats are outside the model. -/
inductive PyVal where
  | none : PyVal
  | bool : Bool → PyVal
  | int : Int → PyVal
  | str : String → PyVal
  | list : List PyVal → PyVal
  | dict : List (String × PyVal) → PyVal
  | datetime : String → PyVal

/-- Python `str()` of the scalar values that reach the f-string
`f"{key}:{value}"` in `_generate_cache_key` (dict and list values are
serialized by `json.dumps` there instead, so those branches are unused). -/
def pyStr : PyVal → String
  | .none => "None"
  | .bool true => "True"
  | .bool false => "False"
  | .int n => toString n
  | .str s => s
  | .datetime s => s
  | .list _ => ""
  | .dict _ => ""

/-- Lexicographic comparison of character lists by code point: Python's
string ordering. -/
def charListLe : List Char → List Char → Bool
  | [], _ => true
  | _ :: _, [] => false
  | a :: as, b :: bs =>
    if a.toNat < b.toNat then true
    else if b.toNat < a.toNat then false
    else charListLe as bs

/-- Python `str` comparison `a <= b` (code-point lexicographic). -/
def strLe (a b : String) : Bool := charListLe a.data b.data

/-- JSON string escaping as `json.dumps` performs it for the characters that
need it here (backslash, quote, and the common control characters; the
`\uXXXX` escapes of other control characters are not modelled). -/
def jsonEscChar : Char → String
  | '"' => "\\\""
  | '\\' => "\\\\"
  | '\n' => "\\n"
  | '\t' => "\\t"
  | '\r' => "\\r"
  | c => String.singleton c

/-- A JSON string literal. -/
def jsonQuote (s : String) : String :=
  "\"" ++ String.join (s.data.map jsonEscChar) ++ "\""

mutual
/-- `json.dumps(v, sort_keys=True)` (default separators `", "` and `": "`,
object keys sorted): `Option.none` models the `TypeError` raised for a value
that is not JSON serializable (here: a datetime reached without
`default=str`). -/
def jsonDumpsSorted : PyVal → Option String
  | .none => some "null"
  | .bool true => some "true"
  | .bool false => some "false"
  | .int n => some (toString n)
  | .str s => some (jsonQuote s)
  | .datetime _ => Option.none
  | .list xs =>
    (jsonDumpsSortedList xs).map fun ss =>
      "[" ++ String.intercalate ", " ss ++ "]"
  | .dict kvs =>
    (jsonDumpsSortedPairs kvs).map fun ps =>
      let sorted := List.insertionSort
        (fun a b : String × String => strLe a.1 b.1 = true) ps
      "\x7b" ++ String.intercalate ", "
        (sorted.map fun p => jsonQuote p.1 ++ ": " ++ p.2) ++ "\x7d"

def jsonDumpsSortedList : List PyVal → Option (List String)
  | [] => some []
  | v :: vs =>
    match jsonDumpsSorted v, jsonDumpsSortedList vs with
    | some s, some ss => some (s :: ss)
    | _, _ => Option.none

def jsonDumpsSortedPairs : List (String × PyVal) → Option (List (String × String))
  | [] => some []
  | (k, v) :: kvs =>
    match jsonDumpsSorted v, jsonDumpsSortedPairs kvs with
    | some s, some ss => some ((k, s) :: ss)
    | _, _ => Option.none
end

mutual
/-- The value-level effect of `CacheManager.set`'s
`json.dumps(data, default=str)` followed by `CacheManager.get`'s
`json.loads`: the value round-trips through JSON text unchanged except that
every datetime-like field is replaced by its string serialization (the
`default=str` hook).  The text-to-JSON-document correspondence itself is the
external `json` library's contract. -/
def pyNormalize : PyVal → PyVal
  | .datetime s => .str s
  | .list xs => .list (pyNormalizeList xs)
  | .dict kvs => .dict (pyNormalizePairs kvs)
  | .none => .none
  | .bool b => .bool b
  | .int n => .int n
  | .str s => .str s

def pyNormalizeList : List PyVal → List PyVal
  | [] => []
  | v :: vs => pyNormalize v :: pyNormalizeList vs

def pyNormalizePairs : List (String × PyVal) → List (String × PyVal)
  | [] => []
  | (k, v) :: kvs => (k, pyNormalize v) :: pyNormalizePairs kvs
end

/-- The ordering `sorted(kwargs.items())` uses: lexicographic on the tuple.
Keyword-argument names are unique, so the comparison never reaches the
values; it is Python string comparison of the names. -/
def kwargLe (a b : String × PyVal) : Prop := strLe a.1 b.1 = true

instance : DecidableRel kwargLe := fun a b =>
  inferInstanceAs (Decidable (strLe a.1 b.1 = true))

/-- One `key_parts` entry, `f"{key}:{value}"`: dict and list values are first
serialized by `json.dumps(value, sort_keys=True)` (whose `TypeError`, if any,
propagates to the caller's `except`), other values rendered by `str`. -/
def renderKwarg : String × PyVal → Option String
  | (k, .dict kvs) => (jsonDumpsSorted (.dict kvs)).map fun s => k ++ ":" ++ s
  | (k, .list xs) => (jsonDumpsSorted (.list xs)).map fun s => k ++ ":" ++ s
  | (k, v) => some (k ++ ":" ++ pyStr v)

/-- `CacheManager._generate_cache_key`: sort the keyword arguments, render
each as `key:value`, and join everything after the prefix with `":"`.
`Option.none` models a serialization `TypeError` escaping to the caller. -/
def generate_cache_key (pfx : String) (kwargs : List (String × PyVal)) :
    Option String :=
  let sorted_kwargs := List.insertionSort kwargLe kwargs
  (sorted_kwargs.mapM renderKwarg).map fun parts =>
    String.intercalate ":" (pfx :: parts)

/-- The Redis data seen by the cache manager: each entry is
(key, stored value, absolute expiry time).  The stored value is the parsed
content of the JSON text Redis holds (`set` writes `json.dumps(data,
default=str)`, `get` applies `json.loads`; that text is always a non-empty —
hence truthy — string, so a present, unexpired entry is a hit). -/
abbrev CacheStore : Type := List (String × PyVal × Nat)

/-- `redis.get` at clock `now`: an entry past its expiry is absent. -/
def cacheStoreGet (store : CacheStore) (k : String) (now : Nat) : Option PyVal :=
  match List.lookup k store with
  | some (v, exp) => if now < exp then some v else Option.none
  | Option.none => Option.none

/-- `redis.set key value ex=ttl`. -/
def cacheStoreSet (store : CacheStore) (k : String) (v : PyVal) (exp : Nat) :
    CacheStore :=
  assocSet store k (v, exp)

/-- `redis.keys pattern` at clock `now` (expired entries are not returned). -/
def cacheStoreKeys (store : CacheStore) (pat : String) (now : Nat) : List String :=
  (store.filter fun e => globMatch pat e.1 && decide (now < e.2.2)).map (·.1)

/-- The `for key in keys: await redis_service.delete(key)` loop. -/
def cacheStoreDelete (store : CacheStore) (ks : List String) : CacheStore :=
  store.filter fun e => !(ks.contains e.1)

/-- `CacheManager._stats`. -/
structure CacheStats where
  hits : Nat
  misses : Nat
  sets : Nat
  invalidations : Nat
deriving DecidableEq, Repr

/-- The cache manager state: whether `initialize` obtained a Redis client,
whether every Redis operation currently raises, the store contents, and the
in-memory statistics. -/
structure CacheManagerState where
  redis_client : Bool
  storeFails : Bool
  store : CacheStore
  stats : CacheStats

/-- `CacheManager.get`: no client means an immediate `None` (no read, no
statistics change); a raising store read is caught and also yields `None`
with no statistics change; otherwise a present key is a hit (deserialized
value returned, hit counter bumped) and an absent key a miss (miss counter
bumped). -/
def CacheManager.get (st : CacheManagerState) (cache_type : String)
    (key_suffix : String) (kwargs : List (String × PyVal)) (now : Nat) :
    Option PyVal × CacheManagerState :=
  if !st.redis_client then (Option.none, st)
  else
    match generate_cache_key ("cache:" ++ cache_type)
        (("key_suffix", .str key_suffix) :: kwargs) with
    | Option.none => (Option.none, st)
    | some cache_key =>
      if st.storeFails then (Option.none, st)
      else
        match cacheStoreGet st.store cache_key now with
        | some v =>
          (some v, { st with stats := { st.stats with hits := st.stats.hits + 1 } })
        | Option.none =>
          (Option.none,
           { st with stats := { st.stats with misses := st.stats.misses + 1 } })

/-- `CacheManager.set`: no client or unknown cache type is a no-op; a raising
store write is caught (statistics unchanged); otherwise the normalized value
is stored under the generated key with the configured TTL and the set counter
is bumped. -/
def CacheManager.set (st : CacheManagerState) (cache_type : String)
    (data : PyVal) (key_suffix : String) (kwargs : List (String × PyVal))
    (now : Nat) : CacheManagerState :=
  if !st.redis_client then st
  else
    match List.lookup cache_type CACHE_CONFIGS with
    | Option.none => st
    | some config =>
      match generate_cache_key ("cache:" ++ cache_type)
          (("key_suffix", .str key_suffix) :: kwargs) with
      | Option.none => st
      | some cache_key =>
        if st.storeFails then st
        else
          { st with
            store := cacheStoreSet st.store cache_key (pyNormalize data)
              (now + config.ttl_seconds)
            stats := { st.stats with sets := st.stats.sets + 1 } }

/-- Python `pattern or config.invalidation_pattern` followed by
`if not invalidation_pattern: return`: the resolved pattern, `Option.none`
when the call is a no-op (both candidates `None` or empty). -/
def resolvePattern (pattern : Option String) (configured : Option String) :
    Option String :=
  let chosen :=
    match pattern with
    | some p => if p ≠ "" then some p else configured
    | Option.none => configured
  match chosen with
  | some p => if p = "" then Option.none else some p
  | Option.none => Option.none

/-- `CacheManager.invalidate`: resolve the pattern, enumerate the store keys
matching `"cache:" + pattern`, delete them, and add the number deleted to the
invalidation counter (`if keys:` guards the statistics update). -/
def CacheManager.invalidate (st : CacheManagerState) (cache_type : String)
    (pattern : Option String) (now : Nat) : CacheManagerState :=
  if !st.redis_client then st
  else
    match List.lookup cache_type CACHE_CONFIGS with
    | Option.none => st
    | some config =>
      match resolvePattern pattern config.invalidation_pattern with
      | Option.none => st
      | some invalidation_pattern =>
        if st.storeFails then st
        else
          let keys := cacheStoreKeys st.store ("cache:" ++ invalidation_pattern) now
          if keys.isEmpty then st
          else
            { st with
              store := cacheStoreDelete st.store keys
              stats := { st.stats with
                invalidations := st.stats.invalidations + keys.length } }

/-! ## Theorems -/

/-- **C10**: the `burst_limit` field of `RateLimitConfig` has no effect on
behavior: it is stored by the constructor (defaulting to
`requests_per_minute` when unset or zero), but two configurations differing
only in `burst_limit` produce identical `check_rate_limit` results and
identical store and fallback side effects, in both the Redis path and the
local fallback path. -/
theorem C10_burst_limit_unused :
    (∀ rpm rph rpd, (mkRateLimitConfig rpm rph rpd Option.none).burst_limit = rpm) ∧
    (∀ identifier tier now st rpm rph rpd b b',
      check_with_config identifier ⟨rpm, rph, rpd, b⟩ tier now st =
        check_with_config identifier ⟨rpm, rph, rpd, b'⟩ tier now st) ∧
    (∀ identifier tier now s rpm rph rpd b b',
      check_redis_limit identifier ⟨rpm, rph, rpd, b⟩ tier now s =
        check_redis_limit identifier ⟨rpm, rph, rpd, b'⟩ tier now s) ∧
    (∀ identifier tier now fb rpm rph rpd b b',
      check_local_fallback identifier ⟨rpm, rph, rpd, b⟩ tier now fb =
        check_local_fallback identifier ⟨rpm, rph, rpd, b'⟩ tier now fb) :=
  ⟨fun _ _ _ => rfl, fun _ _ _ _ _ _ _ _ _ => rfl,
   fun _ _ _ _ _ _ _ _ _ => rfl, fun _ _ _ _ _ _ _ _ _ => rfl⟩

/-- **C1**: refuted on the code — evaluating the cache manager at cache type
`"admin_stats"`: a value stored under key suffix `"overview"` lives at key
`cache:admin_stats:key_suffix:overview`, but `invalidate("admin_stats")`
enumerates keys matching `cache:admin:stats:*`, which matches no key `set`
ever generates, so nothing is deleted and the next `get` still returns the
cached value instead of the no-value sentinel the claim requires. -/
theorem C1_invalidate_misses_generated_keys :
    (CacheManager.get
      (CacheManager.invalidate
        (CacheManager.set ⟨true, false, [], ⟨0, 0, 0, 0⟩⟩ "admin_stats"
          (.dict [("total", .int 42)]) "overview" [] 0)
        "admin_stats" Option.none 0)
      "admin_stats" "overview" [] 0).1 = some (.dict [("total", .int 42)]) ∧
    globMatch "cache:admin:stats:*" "cache:admin_stats:key_suffix:overview" = false :=
  ⟨rfl, rfl⟩

/-- **C2**: counterexample — for the unconfigured cache type `"bogus"`,
`CacheManager.get` does perform a store read: with a value present at the
key it computes, `get` returns that value (not the no-value sentinel) and
bumps the hit counter, contradicting the claim that neither a store read nor
a store write occurs. -/
theorem C2_unknown_type_get_reads_store :
    List.lookup "bogus" CACHE_CONFIGS = Option.none ∧
    (CacheManager.get
      ⟨true, false, [("cache:bogus:key_suffix:", .int 7, 100)], ⟨0, 0, 0, 0⟩⟩
      "bogus" "" [] 0).1 = some (.int 7) ∧
    (CacheManager.get
      ⟨true, false, [("cache:bogus:key_suffix:", .int 7, 100)], ⟨0, 0, 0, 0⟩⟩
      "bogus" "" [] 0).2.stats.hits = 1 :=
  ⟨rfl, rfl, rfl⟩

/-- **C2** (amended): for an unknown cache type, `CacheManager.set` performs
no store write and leaves the manager state unchanged, but `CacheManager.get`
consults no configuration: with a working client it reads the store at the
generated key exactly as for configured types, returning the stored value and
bumping the hit counter on a hit, and the no-value sentinel with the miss
counter bumped when nothing is stored there. -/
theorem C2_amended_set_noop_get_still_reads
    (ct : String) (V : PyVal) (suffix : String)
    (kwargs : List (String × PyVal)) (now : Nat) (st : CacheManagerState)
    (k : String)
    (hct : List.lookup ct CACHE_CONFIGS = Option.none) :
    CacheManager.set st ct V suffix kwargs now = st ∧
    (st.redis_client = true → st.storeFails = false →
      generate_cache_key ("cache:" ++ ct)
        (("key_suffix", .str suffix) :: kwargs) = some k →
      (CacheManager.get st ct suffix kwargs now).1 = cacheStoreGet st.store k now ∧
      (∀ v, cacheStoreGet st.store k now = some v →
        (CacheManager.get st ct suffix kwargs now).2.stats.hits = st.stats.hits + 1) ∧
      (cacheStoreGet st.store k now = Option.none →
        (CacheManager.get st ct suffix kwargs now).2.stats.misses = st.stats.misses + 1)) := by
  constructor
  · unfold CacheManager.set
    cases hc : st.redis_client <;> simp [hc, hct]
  · intro hclient hfails hkey
    unfold CacheManager.get
    rw [hkey]
    cases hv : cacheStoreGet st.store k now <;>
      simp [hclient, hfails, hv]

/-- **C2** (amended) witness: at the concrete unknown type `"bogus"` with a
value seeded at the generated key, `set` is the identity and `get` returns
the seeded value with the hit counter bumped. -/
theorem C2_amended_witness :
    List.lookup "bogus" CACHE_CONFIGS = Option.none ∧
    (CacheManager.set
        ⟨true, false, [("cache:bogus:key_suffix:", .int 7, 100)], ⟨0, 0, 0, 0⟩⟩
        "bogus" (.int 5) "" [] 0 =
      ⟨true, false, [("cache:bogus:key_suffix:", .int 7, 100)], ⟨0, 0, 0, 0⟩⟩) := by
  refine ⟨rfl, ?_⟩
  exact (C2_amended_set_noop_get_still_reads "bogus" (.int 5) "" [] 0
    ⟨true, false, [("cache:bogus:key_suffix:", .int 7, 100)], ⟨0, 0, 0, 0⟩⟩
    "cache:bogus:key_suffix:" rfl).1

/-- **C3**: counterexample — with the Redis client missing (store
unavailable), `CacheManager.get` returns the no-value sentinel but does not
increment the miss counter (it stays 0), contradicting the claim that the
miss counter is incremented by exactly 1 in that case. -/
theorem C3_unavailable_store_no_miss_count :
    (CacheManager.get ⟨false, false, [], ⟨0, 0, 0, 0⟩⟩ "admin_stats" "" [] 0).1 =
      Option.none ∧
    (CacheManager.get ⟨false, false, [], ⟨0, 0, 0, 0⟩⟩ "admin_stats" "" [] 0).2.stats.misses =
      0 :=
  ⟨rfl, rfl⟩

/-- **C3** (amended): `get` never raises; when the client is missing it
returns the sentinel with the whole state unchanged, and when the store read
raises it returns the sentinel with the statistics unchanged — the miss
counter is only incremented when a working store reports the key absent, and
the hit counter when it reports the key present (in which case the stored
value is returned). -/
theorem C3_amended_get_counts
    (ct : String) (suffix : String) (kwargs : List (String × PyVal))
    (now : Nat) (st : CacheManagerState) (k : String) :
    (st.redis_client = false →
      CacheManager.get st ct suffix kwargs now = (Option.none, st)) ∧
    (st.storeFails = true →
      (CacheManager.get st ct suffix kwargs now).1 = Option.none ∧
      (CacheManager.get st ct suffix kwargs now).2.stats = st.stats) ∧
    (st.redis_client = true → st.storeFails = false →
      generate_cache_key ("cache:" ++ ct)
        (("key_suffix", .str suffix) :: kwargs) = some k →
      (∀ v, cacheStoreGet st.store k now = some v →
        CacheManager.get st ct suffix kwargs now =
          (some v, { st with stats := { st.stats with hits := st.stats.hits + 1 } })) ∧
      (cacheStoreGet st.store k now = Option.none →
        CacheManager.get st ct suffix kwargs now =
          (Option.none,
           { st with stats := { st.stats with misses := st.stats.misses + 1 } }))) := by
  refine ⟨fun hclient => ?_, fun hfails => ?_, fun hclient hfails hkey => ⟨?_, ?_⟩⟩
  · simp [CacheManager.get, hclient]
  · unfold CacheManager.get
    cases hc : st.redis_client
    · simp
    · cases hkey : generate_cache_key ("cache:" ++ ct)
        (("key_suffix", .str suffix) :: kwargs) <;> simp [hkey, hfails]
  · intro v hv
    simp [CacheManager.get, hclient, hfails, hkey, hv]
  · intro hv
    simp [CacheManager.get, hclient, hfails, hkey, hv]

/-- Looking up the key just written by a Python dict assignment. -/
theorem lookup_assocSet_self {α : Type} (l : List (String × α)) (k : String) (v : α) :
    List.lookup k (assocSet l k v) = some v := by
  induction l with
  | nil => simp [assocSet, List.lookup]
  | cons hd tl ih =>
    obtain ⟨k', v'⟩ := hd
    by_cases h : k' = k
    · simp [assocSet, h, List.lookup]
    · simp only [assocSet, if_neg h, List.lookup]
      have : (k == k') = false := by
        simp [beq_iff_eq]; exact fun hk => h hk.symm
      simp [this, ih]

/-- A Python dict assignment does not disturb other keys. -/
theorem lookup_assocSet_ne {α : Type} (l : List (String × α)) (k k' : String) (v : α)
    (h : k' ≠ k) : List.lookup k' (assocSet l k v) = List.lookup k' l := by
  have hbk : (k' == k) = false := beq_eq_false_iff_ne.mpr h
  induction l with
  | nil => simp [assocSet, List.lookup, hbk]
  | cons hd tl ih =>
    obtain ⟨k₀, v₀⟩ := hd
    by_cases h0 : k₀ = k
    · subst h0
      simp [assocSet, List.lookup, hbk]
    · simp only [assocSet, if_neg h0, List.lookup]
      cases hbeq : k' == k₀ <;> simp [hbeq, ih]

/-- `charListLe` is total. -/
theorem charListLe_total : ∀ as bs, charListLe as bs = true ∨ charListLe bs as = true := by
  intro as
  induction as with
  | nil => intro bs; left; rfl
  | cons a as ih =>
    intro bs
    cases bs with
    | nil => right; rfl
    | cons b bs =>
      by_cases hab : a.toNat < b.toNat
      · left; simp [charListLe, hab]
      · by_cases hba : b.toNat < a.toNat
        · right; simp [charListLe, hba]
        · rcases ih bs with h | h
          · left; simp [charListLe, hab, hba, h]
          · right; simp [charListLe, hab, hba, h]

/-- `charListLe` is transitive. -/
theorem charListLe_trans :
    ∀ as bs cs, charListLe as bs = true → charListLe bs cs = true →
      charListLe as cs = true := by
  intro as
  induction as with
  | nil => intro bs cs _ _; rfl
  | cons a as ih =>
    intro bs cs h1 h2
    cases bs with
    | nil => simp [charListLe] at h1
    | cons b bs =>
      cases cs with
      | nil => simp [charListLe] at h2
      | cons c cs =>
        simp only [charListLe] at h1 h2 ⊢
        by_cases hab : a.toNat < b.toNat
        · by_cases hbc : b.toNat < c.toNat
          · simp [Nat.lt_trans hab hbc]
          · by_cases hcb : c.toNat < b.toNat
            · simp [hbc, hcb] at h2
            · have hbc' : b.toNat = c.toNat := Nat.le_antisymm
                (Nat.le_of_not_lt hcb) (Nat.le_of_not_lt hbc)
              simp [hbc' ▸ hab]
        · by_cases hba : b.toNat < a.toNat
          · simp [hab, hba] at h1
          · have hab' : a.toNat = b.toNat := Nat.le_antisymm
              (Nat.le_of_not_lt hba) (Nat.le_of_not_lt hab)
            by_cases hbc : b.toNat < c.toNat
            · simp [hab' ▸ hbc]
            · by_cases hcb : c.toNat < b.toNat
              · simp [hbc, hcb] at h2
              · simp [hab, hba] at h1
                simp [hbc, hcb] at h2
                simp [hab' ▸ hbc, hab' ▸ hcb, ih bs cs h1 h2]

/-- `charListLe` is antisymmetric. -/
theorem charListLe_antisymm :
    ∀ as bs, charListLe as bs = true → charListLe bs as = true → as = bs := by
  intro as
  induction as with
  | nil =>
    intro bs _ h2
    cases bs with
    | nil => rfl
    | cons b bs => simp [charListLe] at h2
  | cons a as ih =>
    intro bs h1 h2
    cases bs with
    | nil => simp [charListLe] at h1
    | cons b bs =>
      simp only [charListLe] at h1 h2
      by_cases hab : a.toNat < b.toNat
      · simp [hab, Nat.lt_asymm hab] at h2
      · by_cases hba : b.toNat < a.toNat
        · simp [hab, hba] at h1
        · have hval : a.toNat = b.toNat := Nat.le_antisymm
            (Nat.le_of_not_lt hba) (Nat.le_of_not_lt hab)
          have hchar : a = b := Char.eq_of_val_eq (by
            have : a.val.toNat = b.val.toNat := hval
            exact UInt32.toNat.inj this)
          simp [hab, hba] at h1 h2
          rw [hchar, ih bs h1 h2]

/-- `strLe` is antisymmetric. -/
theorem strLe_antisymm (a b : String) (h1 : strLe a b = true)
    (h2 : strLe b a = true) : a = b := by
  cases a with
  | mk da =>
    cases b with
    | mk db =>
      have : da = db := charListLe_antisymm da db h1 h2
      rw [this]

instance : IsTotal (String × PyVal) kwargLe :=
  ⟨fun a b => charListLe_total a.1.data b.1.data⟩

instance : IsTrans (String × PyVal) kwargLe :=
  ⟨fun _ _ _ h1 h2 => charListLe_trans _ _ _ h1 h2⟩

/-- Two lists sorted by keyword-argument name that are permutations of each
other and have no duplicate names are equal (the uniqueness of Python's
`sorted` output on a kwargs item set). -/
theorem sorted_perm_nodup_keys_eq :
    ∀ (l1 l2 : List (String × PyVal)), l1.Sorted kwargLe → l2.Sorted kwargLe →
      l1.Perm l2 → (l1.map Prod.fst).Nodup → l1 = l2 := by
  intro l1
  induction l1 with
  | nil =>
    intro l2 _ _ hperm _
    exact (List.Perm.nil_eq hperm).symm.symm ▸ rfl
  | cons h1 t1 ih =>
    intro l2 hs1 hs2 hperm hnd
    cases l2 with
    | nil => exact absurd hperm.symm (by simp)
    | cons h2 t2 =>
      have hnd' : (h1.1 :: t1.map Prod.fst).Nodup := by
        rw [List.map_cons] at hnd; exact hnd
      have hpair := List.nodup_cons.mp hnd'
      have hh : h1 = h2 := by
        by_contra hne
        have h2mem : h2 ∈ h1 :: t1 := hperm.mem_iff.mpr (by simp)
        have h2t1 : h2 ∈ t1 := by
          rcases List.mem_cons.mp h2mem with h | h
          · exact absurd h.symm hne
          · exact h
        have h1mem : h1 ∈ h2 :: t2 := hperm.mem_iff.mp (by simp)
        have h1t2 : h1 ∈ t2 := by
          rcases List.mem_cons.mp h1mem with h | h
          · exact absurd h hne
          · exact h
        have hle1 : kwargLe h1 h2 := List.rel_of_sorted_cons hs1 h2 h2t1
        have hle2 : kwargLe h2 h1 := List.rel_of_sorted_cons hs2 h1 h1t2
        have hkeys : h1.1 = h2.1 := strLe_antisymm h1.1 h2.1 hle1 hle2
        exact hpair.1 (hkeys ▸ List.mem_map_of_mem Prod.fst h2t1)
      subst hh
      have htails : t1.Perm t2 := hperm.cons_inv
      have := ih t2 (List.Sorted.of_cons hs1) (List.Sorted.of_cons hs2) htails hpair.2
      rw [this]

/-- **C9**: cache key order-independence — two keyword-argument sequences
containing the same name/value pairs (names unique, values of any kind
including dicts and lists) produce the identical cache key through
`_generate_cache_key`, and therefore `get` and `set` with reordered but
equal parameter sets address the same cache entry. -/
theorem C9_cache_key_order_independence
    (pfx : String) (l1 l2 : List (String × PyVal))
    (hperm : l1.Perm l2) (hnd : (l1.map Prod.fst).Nodup) :
    generate_cache_key pfx l1 = generate_cache_key pfx l2 ∧
    (∀ st ct suffix now V, "key_suffix" ∉ l1.map Prod.fst →
      CacheManager.get st ct suffix l1 now = CacheManager.get st ct suffix l2 now ∧
      CacheManager.set st ct V suffix l1 now = CacheManager.set st ct V suffix l2 now) := by
  have hsort : ∀ (a b : List (String × PyVal)), a.Perm b → (a.map Prod.fst).Nodup →
      List.insertionSort kwargLe a = List.insertionSort kwargLe b := by
    intro a b hp hn
    apply sorted_perm_nodup_keys_eq
    · exact List.sorted_insertionSort kwargLe a
    · exact List.sorted_insertionSort kwargLe b
    · exact ((List.perm_insertionSort kwargLe a).trans hp).trans
        (List.perm_insertionSort kwargLe b).symm
    · exact (((List.perm_insertionSort kwargLe a).map Prod.fst).nodup_iff).mpr hn
  have hkey : generate_cache_key pfx l1 = generate_cache_key pfx l2 := by
    unfold generate_cache_key
    rw [hsort l1 l2 hperm hnd]
  refine ⟨hkey, fun st ct suffix now V hks => ?_⟩
  have hcons : ∀ pfx', generate_cache_key pfx' (("key_suffix", PyVal.str suffix) :: l1) =
      generate_cache_key pfx' (("key_suffix", PyVal.str suffix) :: l2) := by
    intro pfx'
    unfold generate_cache_key
    rw [hsort (("key_suffix", PyVal.str suffix) :: l1)
      (("key_suffix", PyVal.str suffix) :: l2) (hperm.cons _) (by simp [hks, hnd])]
  constructor
  · unfold CacheManager.get
    rw [hcons]
  · unfold CacheManager.set
    rw [hcons]

/-- **C9** witness: swapping two concrete keyword arguments yields the same
cache key. -/
theorem C9_witness :
    ([("b", PyVal.int 2), ("a", PyVal.int 1)]).Perm [("a", PyVal.int 1), ("b", PyVal.int 2)] ∧
    (([("b", PyVal.int 2), ("a", PyVal.int 1)]).map Prod.fst).Nodup ∧
    generate_cache_key "cache:admin_stats" [("b", PyVal.int 2), ("a", PyVal.int 1)] =
      generate_cache_key "cache:admin_stats" [("a", PyVal.int 1), ("b", PyVal.int 2)] :=
  ⟨List.Perm.swap _ _ _, by decide,
   (C9_cache_key_order_independence "cache:admin_stats"
      [("b", PyVal.int 2), ("a", PyVal.int 1)] [("a", PyVal.int 1), ("b", PyVal.int 2)]
      (List.Perm.swap _ _ _) (by decide)).1⟩

/-- **C8**: cache round-trip — for a configured cache type, a working store,
and any serializable argument set (the generated key exists), `set` followed
by `get` with identical arguments before the TTL elapses returns the stored
value deep-equal to the original, with datetime-like fields normalized to
their string serialization (`pyNormalize`). -/
theorem C8_cache_round_trip
    (ct : String) (config : CacheConfig) (V : PyVal) (suffix : String)
    (kwargs : List (String × PyVal)) (now now' : Nat) (st : CacheManagerState)
    (k : String)
    (hconfig : List.lookup ct CACHE_CONFIGS = some config)
    (hclient : st.redis_client = true) (hfails : st.storeFails = false)
    (hkey : generate_cache_key ("cache:" ++ ct)
      (("key_suffix", .str suffix) :: kwargs) = some k)
    (hfresh : now' < now + config.ttl_seconds) :
    (CacheManager.get (CacheManager.set st ct V suffix kwargs now)
      ct suffix kwargs now').1 = some (pyNormalize V) := by
  have hset : CacheManager.set st ct V suffix kwargs now =
      { st with
        store := cacheStoreSet st.store k (pyNormalize V) (now + config.ttl_seconds)
        stats := { st.stats with sets := st.stats.sets + 1 } } := by
    unfold CacheManager.set
    simp [hclient, hconfig, hkey, hfails]
  rw [hset]
  unfold CacheManager.get
  simp [hclient, hfails, hkey, cacheStoreGet, cacheStoreSet,
    lookup_assocSet_self, hfresh]

/-- **C8** witness: a concrete round trip through a dict containing a
datetime field, with distinct write and read clocks inside the TTL. -/
theorem C8_witness :
    List.lookup "admin_stats" CACHE_CONFIGS =
      some ⟨300, .AGGRESSIVE, false, some "admin:stats:*"⟩ ∧
    generate_cache_key "cache:admin_stats"
      [("key_suffix", .str "overview"), ("page", .int 1)] =
      some "cache:admin_stats:key_suffix:overview:page:1" ∧
    (10 : Nat) < 0 + 300 ∧
    (CacheManager.get
      (CacheManager.set ⟨true, false, [], ⟨0, 0, 0, 0⟩⟩ "admin_stats"
        (.dict [("when", .datetime "2024-01-01 00:00:00"), ("total", .int 42)])
        "overview" [("page", .int 1)] 0)
      "admin_stats" "overview" [("page", .int 1)] 10).1 =
      some (pyNormalize
        (.dict [("when", .datetime "2024-01-01 00:00:00"), ("total", .int 42)])) :=
  ⟨rfl, by rfl, by decide,
   C8_cache_round_trip "admin_stats" ⟨300, .AGGRESSIVE, false, some "admin:stats:*"⟩
     (.dict [("when", .datetime "2024-01-01 00:00:00"), ("total", .int 42)])
     "overview" [("page", .int 1)] 0 10 ⟨true, false, [], ⟨0, 0, 0, 0⟩⟩
     "cache:admin_stats:key_suffix:overview:page:1"
     rfl rfl rfl (by rfl) (by decide)⟩

/-- **C3** (amended) witness: concrete hit and no-client cases. -/
theorem C3_amended_witness :
    (CacheManager.get ⟨false, true, [], ⟨0, 0, 0, 0⟩⟩ "audit_logs" "" [] 0 =
      (Option.none, ⟨false, true, [], ⟨0, 0, 0, 0⟩⟩)) ∧
    (CacheManager.get ⟨true, false, [("cache:audit_logs:key_suffix:", .int 3, 9)], ⟨0, 0, 0, 0⟩⟩
        "audit_logs" "" [] 0 =
      (some (.int 3),
       ⟨true, false, [("cache:audit_logs:key_suffix:", .int 3, 9)], ⟨1, 0, 0, 0⟩⟩)) := by
  constructor
  · exact (C3_amended_get_counts "audit_logs" "" [] 0
      ⟨false, true, [], ⟨0, 0, 0, 0⟩⟩ "cache:audit_logs:key_suffix:").1 rfl
  · exact ((C3_amended_get_counts "audit_logs" "" [] 0
      ⟨true, false, [("cache:audit_logs:key_suffix:", .int 3, 9)], ⟨0, 0, 0, 0⟩⟩
      "cache:audit_logs:key_suffix:").2.2 rfl rfl rfl).1 (.int 3) rfl


/-- Strings with equal character data are equal. -/
theorem string_data_inj {a b : String} (h : a.data = b.data) : a = b := by
  cases a
  cases b
  exact congrArg String.mk h

/-- Splitting a character list at a separator character that occurs in
neither prefix is unambiguous. -/
theorem sep_split {c : Char} : ∀ (xs ys zs ws : List Char),
    (∀ a ∈ xs, a ≠ c) → (∀ a ∈ ys, a ≠ c) →
    xs ++ c :: zs = ys ++ c :: ws → xs = ys ∧ zs = ws := by
  intro xs
  induction xs with
  | nil =>
    intro ys zs ws _ hy h
    cases ys with
    | nil => simpa using h
    | cons y ys' =>
      rw [List.nil_append, List.cons_append, List.cons.injEq] at h
      exact absurd h.1.symm (hy y (by simp))
  | cons x xs' ih =>
    intro ys zs ws hx hy h
    cases ys with
    | nil =>
      rw [List.nil_append, List.cons_append, List.cons.injEq] at h
      exact absurd h.1 (hx x (by simp))
    | cons y ys' =>
      rw [List.cons_append, List.cons_append, List.cons.injEq] at h
      obtain ⟨hxy, hrest⟩ := h
      obtain ⟨h1, h2⟩ := ih ys' zs ws (fun a ha => hx a (by simp [ha]))
        (fun a ha => hy a (by simp [ha])) hrest
      exact ⟨by rw [hxy, h1], h2⟩

/-- `Nat.digitChar` never produces the key separator `':'`. -/
theorem digitChar_ne_colon (n : Nat) : Nat.digitChar n ≠ ':' := by
  rcases Nat.lt_or_ge n 16 with h | h
  · interval_cases n <;> decide
  · have hne : ∀ i : Nat, i < 16 → ¬n = i := fun i hi hni => by omega
    have h0 : Nat.digitChar n = '*' := by
      rw [Nat.digitChar.eq_1 n]
      rw [if_neg (hne 0 (by norm_num)), if_neg (hne 1 (by norm_num)),
        if_neg (hne 2 (by norm_num)), if_neg (hne 3 (by norm_num)),
        if_neg (hne 4 (by norm_num)), if_neg (hne 5 (by norm_num)),
        if_neg (hne 6 (by norm_num)), if_neg (hne 7 (by norm_num)),
        if_neg (hne 8 (by norm_num)), if_neg (hne 9 (by norm_num)),
        if_neg (hne 10 (by norm_num)), if_neg (hne 11 (by norm_num)),
        if_neg (hne 12 (by norm_num)), if_neg (hne 13 (by norm_num)),
        if_neg (hne 14 (by norm_num)), if_neg (hne 15 (by norm_num))]
    rw [h0]
    decide

/-- No character of a decimal rendering is `':'`. -/
theorem natDigitsAux_ne_colon : ∀ fuel n, ∀ ch ∈ natDigitsAux fuel n, ch ≠ ':' := by
  intro fuel
  induction fuel with
  | zero => intro n ch h; simp [natDigitsAux] at h
  | succ f ih =>
    intro n ch h
    simp only [natDigitsAux] at h
    split at h
    · simp only [List.mem_singleton] at h
      subst h
      exact digitChar_ne_colon n
    · rw [List.mem_append, List.mem_singleton] at h
      rcases h with h | h
      · exact ih _ ch h
      · subst h
        exact digitChar_ne_colon _

/-- No character of `natStr n` is `':'`. -/
theorem natStr_ne_colon (n : Nat) : ∀ ch ∈ (natStr n).data, ch ≠ ':' :=
  natDigitsAux_ne_colon (n + 1) n

/-- No tier value contains `':'`. -/
theorem tier_value_ne_colon (t : RateLimitTier) : ∀ ch ∈ t.value.data, ch ≠ ':' := by
  cases t <;> decide

/-- Tier values are pairwise distinct. -/
theorem tier_value_inj : ∀ t1 t2 : RateLimitTier, t1.value = t2.value → t1 = t2 := by
  intro t1 t2
  cases t1 <;> cases t2 <;> intro h <;> first
    | rfl
    | exact absurd h (by decide)

/-- No window label contains `':'`. -/
theorem label_ne_colon (la : String) (hla : la = "min" ∨ la = "hour" ∨ la = "day") :
    ∀ ch ∈ la.data, ch ≠ ':' := by
  rcases hla with rfl | rfl | rfl <;> decide

/-- A rate-limit key determines the tier, the client identifier and the
window label: the tier value and the window parts are colon-free, so the
colon-separated layout `rate_limit:<tier>:<identifier>:<label>:<bucket>` can
be split back unambiguously (the identifier itself may contain colons; it is
recovered between the first separator after the tier and the last two
separators). -/
theorem get_key_inj (a b : String) (ta tb : RateLimitTier) (la lb : String)
    (na nb : Nat)
    (hla : la = "min" ∨ la = "hour" ∨ la = "day")
    (hlb : lb = "min" ∨ lb = "hour" ∨ lb = "day")
    (h : get_key a ta (la ++ ":" ++ natStr na) = get_key b tb (lb ++ ":" ++ natStr nb)) :
    a = b ∧ ta = tb ∧ la = lb := by
  have h' := congrArg String.data h
  simp only [get_key, String.data_append, List.append_eq, List.append_assoc,
    List.singleton_append] at h'
  have h'' := List.append_cancel_left h'
  obtain ⟨hv, hrest⟩ := sep_split _ _ _ _ (tier_value_ne_colon ta)
    (tier_value_ne_colon tb) h''
  have htier : ta = tb := tier_value_inj ta tb (string_data_inj hv)
  have hrev := congrArg List.reverse hrest
  simp only [List.append_eq, List.reverse_append, List.reverse_cons,
    List.append_assoc, List.singleton_append, List.nil_append] at hrev
  obtain ⟨_, hrev2⟩ := sep_split _ _ _ _
    (fun ch hch => natStr_ne_colon na ch (List.mem_reverse.mp hch))
    (fun ch hch => natStr_ne_colon nb ch (List.mem_reverse.mp hch)) hrev
  obtain ⟨hlab, hid⟩ := sep_split _ _ _ _
    (fun ch hch => label_ne_colon la hla ch (List.mem_reverse.mp hch))
    (fun ch hch => label_ne_colon lb hlb ch (List.mem_reverse.mp hch)) hrev2
  refine ⟨?_, htier, ?_⟩
  · exact string_data_inj (List.reverse_injective hid)
  · exact string_data_inj (List.reverse_injective hlab)

/-- Distinct identifier, tier, or window label means a distinct key. -/
theorem get_key_ne (a b : String) (ta tb : RateLimitTier) (la lb : String)
    (na nb : Nat)
    (hla : la = "min" ∨ la = "hour" ∨ la = "day")
    (hlb : lb = "min" ∨ lb = "hour" ∨ lb = "day")
    (hne : a ≠ b ∨ ta ≠ tb ∨ la ≠ lb) :
    get_key a ta (la ++ ":" ++ natStr na) ≠ get_key b tb (lb ++ ":" ++ natStr nb) := by
  intro h
  obtain ⟨h1, h2, h3⟩ := get_key_inj a b ta tb la lb na nb hla hlb h
  rcases hne with h' | h' | h'
  · exact h' h1
  · exact h' h2
  · exact h' h3

/-- The per-window data recorded by `windowCheck`. -/
theorem windowCheck_fst (s : RedisStore) (key : String) (limit ttl reset : Nat) :
    (windowCheck s key limit ttl reset).1 =
      ⟨s.counts key + 1, limit, decide (s.counts key + 1 > limit), reset⟩ := rfl

/-- `windowCheck` increments its own key by exactly one. -/
theorem windowCheck_counts_self (s : RedisStore) (key : String) (limit ttl reset : Nat) :
    ((windowCheck s key limit ttl reset).2).counts key = s.counts key + 1 := by
  show (if s.counts key + 1 = 1 then ((s.incr key).2).expire key ttl
    else (s.incr key).2).counts key = _
  split <;> simp [RedisStore.incr, RedisStore.expire]

/-- `windowCheck` leaves every other counter unchanged. -/
theorem windowCheck_counts_ne (s : RedisStore) (key : String) (limit ttl reset : Nat)
    (k : String) (h : k ≠ key) :
    ((windowCheck s key limit ttl reset).2).counts k = s.counts k := by
  show (if s.counts key + 1 = 1 then ((s.incr key).2).expire key ttl
    else (s.incr key).2).counts k = _
  split <;> simp [RedisStore.incr, RedisStore.expire, h]

/-- `windowCheck` sets the expiry of a key it creates (count 0 before). -/
theorem windowCheck_expires_self (s : RedisStore) (key : String) (limit ttl reset : Nat)
    (h0 : s.counts key = 0) :
    ((windowCheck s key limit ttl reset).2).expires key = some ttl := by
  show (if s.counts key + 1 = 1 then ((s.incr key).2).expire key ttl
    else (s.incr key).2).expires key = _
  simp [h0, RedisStore.incr, RedisStore.expire]

/-- `windowCheck` leaves every other expiry unchanged. -/
theorem windowCheck_expires_ne (s : RedisStore) (key : String) (limit ttl reset : Nat)
    (k : String) (h : k ≠ key) :
    ((windowCheck s key limit ttl reset).2).expires k = s.expires k := by
  show (if s.counts key + 1 = 1 then ((s.incr key).2).expire key ttl
    else (s.incr key).2).expires k = _
  split <;> simp [RedisStore.incr, RedisStore.expire, h]

/-- The hour key differs from the minute key of the same client and tier. -/
theorem hour_key_ne_min_key (i : String) (t : RateLimitTier) (n1 n2 : Nat) :
    get_key i t ("hour:" ++ natStr n1) ≠ get_key i t ("min:" ++ natStr n2) :=
  get_key_ne i i t t "hour" "min" n1 n2 (Or.inr (Or.inl rfl)) (Or.inl rfl)
    (Or.inr (Or.inr (by decide)))

/-- The day key differs from the minute key of the same client and tier. -/
theorem day_key_ne_min_key (i : String) (t : RateLimitTier) (n1 n2 : Nat) :
    get_key i t ("day:" ++ natStr n1) ≠ get_key i t ("min:" ++ natStr n2) :=
  get_key_ne i i t t "day" "min" n1 n2 (Or.inr (Or.inr rfl)) (Or.inl rfl)
    (Or.inr (Or.inr (by decide)))

/-- The day key differs from the hour key of the same client and tier. -/
theorem day_key_ne_hour_key (i : String) (t : RateLimitTier) (n1 n2 : Nat) :
    get_key i t ("day:" ++ natStr n1) ≠ get_key i t ("hour:" ++ natStr n2) :=
  get_key_ne i i t t "day" "hour" n1 n2 (Or.inr (Or.inr rfl)) (Or.inr (Or.inl rfl))
    (Or.inr (Or.inr (by decide)))

/-- The `results` dict `_check_redis_limit` builds: one entry per configured
window, in minute, hour, day order, whose count is the prior value of that
window's own counter plus one (the three window keys are pairwise distinct,
so earlier increments of the same call do not leak into later windows). -/
theorem crl_results (identifier : String) (config : RateLimitConfig)
    (tier : RateLimitTier) (now : Nat) (s : RedisStore) :
    (check_redis_limit identifier config tier now s).1 =
      (match truthyNat config.requests_per_minute with
       | some n =>
         [("minute",
           ⟨s.counts (get_key identifier tier ("min:" ++ natStr (now / 60))) + 1, n,
            decide (s.counts (get_key identifier tier ("min:" ++ natStr (now / 60))) + 1 > n),
            (now / 60 + 1) * 60⟩)]
       | none => []) ++
      (match truthyNat config.requests_per_hour with
       | some n =>
         [("hour",
           ⟨s.counts (get_key identifier tier ("hour:" ++ natStr (now / 3600))) + 1, n,
            decide (s.counts (get_key identifier tier ("hour:" ++ natStr (now / 3600))) + 1 > n),
            (now / 3600 + 1) * 3600⟩)]
       | none => []) ++
      (match truthyNat config.requests_per_day with
       | some n =>
         [("day",
           ⟨s.counts (get_key identifier tier ("day:" ++ natStr (now / 86400))) + 1, n,
            decide (s.counts (get_key identifier tier ("day:" ++ natStr (now / 86400))) + 1 > n),
            (now / 86400 + 1) * 86400⟩)]
       | none => []) := by
  have hhm := hour_key_ne_min_key identifier tier (now / 3600) (now / 60)
  have hdm := day_key_ne_min_key identifier tier (now / 86400) (now / 60)
  have hdh := day_key_ne_hour_key identifier tier (now / 86400) (now / 3600)
  unfold check_redis_limit
  rcases h1 : truthyNat config.requests_per_minute with _ | n1 <;>
    rcases h2 : truthyNat config.requests_per_hour with _ | n2 <;>
      rcases h3 : truthyNat config.requests_per_day with _ | n3 <;>
        simp [h1, h2, h3, windowCheck_fst,
          windowCheck_counts_ne _ _ _ _ _ _ hhm,
          windowCheck_counts_ne _ _ _ _ _ _ hdm,
          windowCheck_counts_ne _ _ _ _ _ _ hdh]

/-- The minute counter after `_check_redis_limit`: incremented exactly once
when the minute window is configured, untouched otherwise. -/
theorem crl_counts_min (identifier : String) (config : RateLimitConfig)
    (tier : RateLimitTier) (now : Nat) (s : RedisStore) :
    ((check_redis_limit identifier config tier now s).2).counts
        (get_key identifier tier ("min:" ++ natStr (now / 60))) =
      s.counts (get_key identifier tier ("min:" ++ natStr (now / 60))) +
        (match truthyNat config.requests_per_minute with
         | some _ => 1
         | none => 0) := by
  have hhm := hour_key_ne_min_key identifier tier (now / 3600) (now / 60)
  have hdm := day_key_ne_min_key identifier tier (now / 86400) (now / 60)
  unfold check_redis_limit
  rcases h1 : truthyNat config.requests_per_minute with _ | n1 <;>
    rcases h2 : truthyNat config.requests_per_hour with _ | n2 <;>
      rcases h3 : truthyNat config.requests_per_day with _ | n3 <;>
        simp [h1, h2, h3, windowCheck_counts_self,
          windowCheck_counts_ne _ _ _ _ _ _ hhm.symm,
          windowCheck_counts_ne _ _ _ _ _ _ hdm.symm]

/-- The hour counter after `_check_redis_limit`. -/
theorem crl_counts_hour (identifier : String) (config : RateLimitConfig)
    (tier : RateLimitTier) (now : Nat) (s : RedisStore) :
    ((check_redis_limit identifier config tier now s).2).counts
        (get_key identifier tier ("hour:" ++ natStr (now / 3600))) =
      s.counts (get_key identifier tier ("hour:" ++ natStr (now / 3600))) +
        (match truthyNat config.requests_per_hour with
         | some _ => 1
         | none => 0) := by
  have hhm := hour_key_ne_min_key identifier tier (now / 3600) (now / 60)
  have hdh := day_key_ne_hour_key identifier tier (now / 86400) (now / 3600)
  unfold check_redis_limit
  rcases h1 : truthyNat config.requests_per_minute with _ | n1 <;>
    rcases h2 : truthyNat config.requests_per_hour with _ | n2 <;>
      rcases h3 : truthyNat config.requests_per_day with _ | n3 <;>
        simp [h1, h2, h3, windowCheck_counts_self,
          windowCheck_counts_ne _ _ _ _ _ _ hhm,
          windowCheck_counts_ne _ _ _ _ _ _ hdh.symm]

/-- The day counter after `_check_redis_limit`. -/
theorem crl_counts_day (identifier : String) (config : RateLimitConfig)
    (tier : RateLimitTier) (now : Nat) (s : RedisStore) :
    ((check_redis_limit identifier config tier now s).2).counts
        (get_key identifier tier ("day:" ++ natStr (now / 86400))) =
      s.counts (get_key identifier tier ("day:" ++ natStr (now / 86400))) +
        (match truthyNat config.requests_per_day with
         | some _ => 1
         | none => 0) := by
  have hdm := day_key_ne_min_key identifier tier (now / 86400) (now / 60)
  have hdh := day_key_ne_hour_key identifier tier (now / 86400) (now / 3600)
  unfold check_redis_limit
  rcases h1 : truthyNat config.requests_per_minute with _ | n1 <;>
    rcases h2 : truthyNat config.requests_per_hour with _ | n2 <;>
      rcases h3 : truthyNat config.requests_per_day with _ | n3 <;>
        simp [h1, h2, h3, windowCheck_counts_self,
          windowCheck_counts_ne _ _ _ _ _ _ hdm,
          windowCheck_counts_ne _ _ _ _ _ _ hdh]

/-- `_check_redis_limit` never changes a counter outside its three window
keys. -/
theorem crl_counts_frame (identifier : String) (config : RateLimitConfig)
    (tier : RateLimitTier) (now : Nat) (s : RedisStore) (k : String)
    (h : k ∉ touchedKeys identifier tier now) :
    ((check_redis_limit identifier config tier now s).2).counts k = s.counts k := by
  simp only [touchedKeys, List.mem_cons, List.not_mem_nil, or_false, not_or] at h
  obtain ⟨hm, hh, hd⟩ := h
  unfold check_redis_limit
  rcases h1 : truthyNat config.requests_per_minute with _ | n1 <;>
    rcases h2 : truthyNat config.requests_per_hour with _ | n2 <;>
      rcases h3 : truthyNat config.requests_per_day with _ | n3 <;>
        simp [h1, h2, h3,
          windowCheck_counts_ne _ _ _ _ _ _ hm,
          windowCheck_counts_ne _ _ _ _ _ _ hh,
          windowCheck_counts_ne _ _ _ _ _ _ hd]

/-- Any single `_check_redis_limit` call adds at most one to any counter. -/
theorem crl_counts_le (identifier : String) (config : RateLimitConfig)
    (tier : RateLimitTier) (now : Nat) (s : RedisStore) (k : String) :
    ((check_redis_limit identifier config tier now s).2).counts k ≤ s.counts k + 1 := by
  by_cases hm : k = get_key identifier tier ("min:" ++ natStr (now / 60))
  · subst hm
    rw [crl_counts_min]
    cases truthyNat config.requests_per_minute <;> simp
  · by_cases hh : k = get_key identifier tier ("hour:" ++ natStr (now / 3600))
    · subst hh
      rw [crl_counts_hour]
      cases truthyNat config.requests_per_hour <;> simp
    · by_cases hd : k = get_key identifier tier ("day:" ++ natStr (now / 86400))
      · subst hd
        rw [crl_counts_day]
        cases truthyNat config.requests_per_day <;> simp
      · rw [crl_counts_frame identifier config tier now s k
          (by simp [touchedKeys, hm, hh, hd])]
        omega

/-- The minute expiry is set to 60 seconds when the increment creates the
minute counter. -/
theorem crl_expires_min (identifier : String) (config : RateLimitConfig)
    (tier : RateLimitTier) (now : Nat) (s : RedisStore) (n : Nat)
    (hmin : truthyNat config.requests_per_minute = some n)
    (h0 : s.counts (get_key identifier tier ("min:" ++ natStr (now / 60))) = 0) :
    ((check_redis_limit identifier config tier now s).2).expires
      (get_key identifier tier ("min:" ++ natStr (now / 60))) = some 60 := by
  have hhm := hour_key_ne_min_key identifier tier (now / 3600) (now / 60)
  have hdm := day_key_ne_min_key identifier tier (now / 86400) (now / 60)
  unfold check_redis_limit
  rcases h2 : truthyNat config.requests_per_hour with _ | n2 <;>
    rcases h3 : truthyNat config.requests_per_day with _ | n3 <;>
      simp [hmin, h2, h3, windowCheck_expires_self _ _ _ _ _ h0,
        windowCheck_expires_ne _ _ _ _ _ _ hhm.symm,
        windowCheck_expires_ne _ _ _ _ _ _ hdm.symm]

/-- The hour expiry is set to 3600 seconds when the increment creates the
hour counter. -/
theorem crl_expires_hour (identifier : String) (config : RateLimitConfig)
    (tier : RateLimitTier) (now : Nat) (s : RedisStore) (n : Nat)
    (hhour : truthyNat config.requests_per_hour = some n)
    (h0 : s.counts (get_key identifier tier ("hour:" ++ natStr (now / 3600))) = 0) :
    ((check_redis_limit identifier config tier now s).2).expires
      (get_key identifier tier ("hour:" ++ natStr (now / 3600))) = some 3600 := by
  have hhm := hour_key_ne_min_key identifier tier (now / 3600) (now / 60)
  have hdh := day_key_ne_hour_key identifier tier (now / 86400) (now / 3600)
  unfold check_redis_limit
  rcases h1 : truthyNat config.requests_per_minute with _ | n1 <;>
    rcases h3 : truthyNat config.requests_per_day with _ | n3 <;>
      simp [h1, hhour, h3, windowCheck_expires_self,
        windowCheck_counts_ne _ _ _ _ _ _ hhm, h0,
        windowCheck_expires_ne _ _ _ _ _ _ hdh.symm]

/-- The day expiry is set to 86400 seconds when the increment creates the
day counter. -/
theorem crl_expires_day (identifier : String) (config : RateLimitConfig)
    (tier : RateLimitTier) (now : Nat) (s : RedisStore) (n : Nat)
    (hday : truthyNat config.requests_per_day = some n)
    (h0 : s.counts (get_key identifier tier ("day:" ++ natStr (now / 86400))) = 0) :
    ((check_redis_limit identifier config tier now s).2).expires
      (get_key identifier tier ("day:" ++ natStr (now / 86400))) = some 86400 := by
  have hdm := day_key_ne_min_key identifier tier (now / 86400) (now / 60)
  have hdh := day_key_ne_hour_key identifier tier (now / 86400) (now / 3600)
  unfold check_redis_limit
  rcases h1 : truthyNat config.requests_per_minute with _ | n1 <;>
    rcases h2 : truthyNat config.requests_per_hour with _ | n2 <;>
      simp [h1, h2, hday, windowCheck_expires_self,
        windowCheck_counts_ne _ _ _ _ _ _ hdm,
        windowCheck_counts_ne _ _ _ _ _ _ hdh, h0]

/-- `check_rate_limit` with a working Redis client: scan the Redis results
and thread the updated store. -/
theorem check_rate_limit_redis (identifier : String) (tier : RateLimitTier)
    (now : Nat) (rs : RedisStore) (fb : LocalFallback) :
    check_rate_limit identifier tier now ⟨some rs, false, fb⟩ =
      (findExceeded now (check_redis_limit identifier (tier_config tier) tier now rs).1,
       ⟨some (check_redis_limit identifier (tier_config tier) tier now rs).2, false, fb⟩) := by
  unfold check_rate_limit RATE_LIMIT_CONFIGS check_with_config
  simp

/-- `check_rate_limit` with a Redis client whose every operation raises:
scan the local fallback results, thread the fallback dict, leave Redis
untouched. -/
theorem check_rate_limit_fails (identifier : String) (tier : RateLimitTier)
    (now : Nat) (rs : RedisStore) (fb : LocalFallback) :
    check_rate_limit identifier tier now ⟨some rs, true, fb⟩ =
      (findExceeded now (check_local_fallback identifier (tier_config tier) tier now fb).1,
       ⟨some rs, true, (check_local_fallback identifier (tier_config tier) tier now fb).2⟩) := by
  unfold check_rate_limit RATE_LIMIT_CONFIGS check_with_config
  simp

/-- **C5**: with the store available and the tier configured, every
`check_rate_limit` call increments each configured window counter of that
client and tier by exactly 1 — regardless of the call's outcome, including
the request that pushes a counter over its limit (the statement is
unconditional on the result) — and an increment that creates a counter
(prior value 0, i.e. the key was absent) sets that key's store expiry to the
window duration: 60, 3600 or 86400 seconds. -/
theorem C5_every_call_increments_counters
    (identifier : String) (tier : RateLimitTier) (cfg : RateLimitConfig)
    (now : Nat) (rs : RedisStore) (fb : LocalFallback)
    (hcfg : RATE_LIMIT_CONFIGS tier = some cfg) :
    ∃ rs',
      (check_rate_limit identifier tier now ⟨some rs, false, fb⟩).2 =
        ⟨some rs', false, fb⟩ ∧
      (∀ n, truthyNat cfg.requests_per_minute = some n →
        rs'.counts (get_key identifier tier ("min:" ++ natStr (now / 60))) =
          rs.counts (get_key identifier tier ("min:" ++ natStr (now / 60))) + 1 ∧
        (rs.counts (get_key identifier tier ("min:" ++ natStr (now / 60))) = 0 →
          rs'.expires (get_key identifier tier ("min:" ++ natStr (now / 60))) =
            some 60)) ∧
      (∀ n, truthyNat cfg.requests_per_hour = some n →
        rs'.counts (get_key identifier tier ("hour:" ++ natStr (now / 3600))) =
          rs.counts (get_key identifier tier ("hour:" ++ natStr (now / 3600))) + 1 ∧
        (rs.counts (get_key identifier tier ("hour:" ++ natStr (now / 3600))) = 0 →
          rs'.expires (get_key identifier tier ("hour:" ++ natStr (now / 3600))) =
            some 3600)) ∧
      (∀ n, truthyNat cfg.requests_per_day = some n →
        rs'.counts (get_key identifier tier ("day:" ++ natStr (now / 86400))) =
          rs.counts (get_key identifier tier ("day:" ++ natStr (now / 86400))) + 1 ∧
        (rs.counts (get_key identifier tier ("day:" ++ natStr (now / 86400))) = 0 →
          rs'.expires (get_key identifier tier ("day:" ++ natStr (now / 86400))) =
            some 86400)) := by
  have hc : tier_config tier = cfg := by
    have h := hcfg
    unfold RATE_LIMIT_CONFIGS at h
    exact Option.some.inj h
  refine ⟨(check_redis_limit identifier cfg tier now rs).2, ?_, ?_, ?_, ?_⟩
  · rw [check_rate_limit_redis, hc]
  · intro n hn
    refine ⟨?_, fun h0 => crl_expires_min identifier cfg tier now rs n hn h0⟩
    rw [crl_counts_min, hn]
  · intro n hn
    refine ⟨?_, fun h0 => crl_expires_hour identifier cfg tier now rs n hn h0⟩
    rw [crl_counts_hour, hn]
  · intro n hn
    refine ⟨?_, fun h0 => crl_expires_day identifier cfg tier now rs n hn h0⟩
    rw [crl_counts_day, hn]

/-- **C5** witness: the admin tier (minute and hour windows configured) on a
fresh store. -/
theorem C5_witness :
    RATE_LIMIT_CONFIGS RateLimitTier.ADMIN_ACTIONS =
      some (mkRateLimitConfig (some 10) (some 50) Option.none (some 5)) ∧
    ∃ rs',
      (check_rate_limit "10.0.0.5" RateLimitTier.ADMIN_ACTIONS 0
        ⟨some ⟨fun _ => 0, fun _ => Option.none⟩, false, []⟩).2 =
        ⟨some rs', false, []⟩ ∧
      (∀ n, truthyNat (mkRateLimitConfig (some 10) (some 50) Option.none
          (some 5)).requests_per_minute = some n →
        rs'.counts (get_key "10.0.0.5" RateLimitTier.ADMIN_ACTIONS
            ("min:" ++ natStr (0 / 60))) =
          (⟨fun _ => 0, fun _ => Option.none⟩ : RedisStore).counts
            (get_key "10.0.0.5" RateLimitTier.ADMIN_ACTIONS
              ("min:" ++ natStr (0 / 60))) + 1 ∧
        ((⟨fun _ => 0, fun _ => Option.none⟩ : RedisStore).counts
            (get_key "10.0.0.5" RateLimitTier.ADMIN_ACTIONS
              ("min:" ++ natStr (0 / 60))) = 0 →
          rs'.expires (get_key "10.0.0.5" RateLimitTier.ADMIN_ACTIONS
            ("min:" ++ natStr (0 / 60))) = some 60)) ∧
      (∀ n, truthyNat (mkRateLimitConfig (some 10) (some 50) Option.none
          (some 5)).requests_per_hour = some n →
        rs'.counts (get_key "10.0.0.5" RateLimitTier.ADMIN_ACTIONS
            ("hour:" ++ natStr (0 / 3600))) =
          (⟨fun _ => 0, fun _ => Option.none⟩ : RedisStore).counts
            (get_key "10.0.0.5" RateLimitTier.ADMIN_ACTIONS
              ("hour:" ++ natStr (0 / 3600))) + 1 ∧
        ((⟨fun _ => 0, fun _ => Option.none⟩ : RedisStore).counts
            (get_key "10.0.0.5" RateLimitTier.ADMIN_ACTIONS
              ("hour:" ++ natStr (0 / 3600))) = 0 →
          rs'.expires (get_key "10.0.0.5" RateLimitTier.ADMIN_ACTIONS
            ("hour:" ++ natStr (0 / 3600))) = some 3600)) ∧
      (∀ n, truthyNat (mkRateLimitConfig (some 10) (some 50) Option.none
          (some 5)).requests_per_day = some n →
        rs'.counts (get_key "10.0.0.5" RateLimitTier.ADMIN_ACTIONS
            ("day:" ++ natStr (0 / 86400))) =
          (⟨fun _ => 0, fun _ => Option.none⟩ : RedisStore).counts
            (get_key "10.0.0.5" RateLimitTier.ADMIN_ACTIONS
              ("day:" ++ natStr (0 / 86400))) + 1 ∧
        ((⟨fun _ => 0, fun _ => Option.none⟩ : RedisStore).counts
            (get_key "10.0.0.5" RateLimitTier.ADMIN_ACTIONS
              ("day:" ++ natStr (0 / 86400))) = 0 →
          rs'.expires (get_key "10.0.0.5" RateLimitTier.ADMIN_ACTIONS
            ("day:" ++ natStr (0 / 86400))) = some 86400)) :=
  ⟨rfl, C5_every_call_increments_counters "10.0.0.5" RateLimitTier.ADMIN_ACTIONS
    (mkRateLimitConfig (some 10) (some 50) Option.none (some 5)) 0
    ⟨fun _ => 0, fun _ => Option.none⟩ [] rfl⟩

/-- The rejection scan skips a non-exceeded window entry. -/
theorem findExceeded_cons_false (now : Nat) (w : String) (d : WindowData)
    (rest : List (String × WindowData)) (h : d.exceeded = false) :
    findExceeded now ((w, d) :: rest) = findExceeded now rest := by
  simp [findExceeded, h]

/-- The rejection scan stops at the first exceeded window entry. -/
theorem findExceeded_cons_true (now : Nat) (w : String) (d : WindowData)
    (rest : List (String × WindowData)) (h : d.exceeded = true) :
    findExceeded now ((w, d) :: rest) =
      some ⟨true, w, d.count, d.limit, d.reset_time,
        (d.reset_time : Int) - (now : Int)⟩ := by
  simp [findExceeded, h]

/-- The window reported by the rejection scan is the first window entry of
the results dict whose limit was exceeded. -/
theorem findExceeded_window (now : Nat) : ∀ results : List (String × WindowData),
    (findExceeded now results).map RejectInfo.window =
      (results.find? fun e => e.2.exceeded).map Prod.fst := by
  intro results
  induction results with
  | nil => rfl
  | cons e rest ih =>
    obtain ⟨w, d⟩ := e
    by_cases h : d.exceeded = true
    · rw [findExceeded_cons_true now w d rest h, List.find?_cons_of_pos _ (by simpa using h)]
      rfl
    · rw [findExceeded_cons_false now w d rest (by simpa using h),
        List.find?_cons_of_neg _ (by simpa using h), ih]

/-- The window entries of a `_check_redis_limit` results dict appear in the
fixed minute, hour, day evaluation order. -/
theorem crl_window_order (identifier : String) (config : RateLimitConfig)
    (tier : RateLimitTier) (now : Nat) (s : RedisStore) :
    ((check_redis_limit identifier config tier now s).1).map Prod.fst =
      (match truthyNat config.requests_per_minute with
       | some _ => ["minute"]
       | none => []) ++
      (match truthyNat config.requests_per_hour with
       | some _ => ["hour"]
       | none => []) ++
      (match truthyNat config.requests_per_day with
       | some _ => ["day"]
       | none => []) := by
  rw [crl_results]
  rcases truthyNat config.requests_per_minute with _ | n1 <;>
    rcases truthyNat config.requests_per_hour with _ | n2 <;>
      rcases truthyNat config.requests_per_day with _ | n3 <;> simp

/-- Store evolution across a sequence of same-client, same-tier calls inside
one minute bucket, with a working store: the minute counter grows by exactly
the number of calls (when the minute window is configured), any counter grows
by at most the number of calls, and the failure flag and fallback dict are
untouched. -/
theorem runCalls_redis_counts (identifier : String) (tier : RateLimitTier)
    (m : Nat) :
    ∀ (times : List Nat), (∀ t ∈ times, t / 60 = m) →
    ∀ (rs0 : RedisStore) (fb0 : LocalFallback),
    ∃ rsK,
      runCalls (times.map fun t => (identifier, tier, t)) ⟨some rs0, false, fb0⟩ =
        ⟨some rsK, false, fb0⟩ ∧
      ((truthyNat (tier_config tier).requests_per_minute).isSome = true →
        rsK.counts (get_key identifier tier ("min:" ++ natStr m)) =
          rs0.counts (get_key identifier tier ("min:" ++ natStr m)) + times.length) ∧
      (∀ k, rsK.counts k ≤ rs0.counts k + times.length) := by
  intro times
  induction times with
  | nil =>
    intro _ rs0 fb0
    exact ⟨rs0, rfl, by simp, fun k => by simp [runCalls]⟩
  | cons t rest ih =>
    intro ht rs0 fb0
    have ht0 : t / 60 = m := ht t (by simp)
    have hstep :
        runCalls ((t :: rest).map fun t => (identifier, tier, t))
          ⟨some rs0, false, fb0⟩ =
        runCalls (rest.map fun t => (identifier, tier, t))
          ⟨some (check_redis_limit identifier (tier_config tier) tier t rs0).2,
           false, fb0⟩ := by
      simp only [List.map_cons, runCalls, List.foldl_cons]
      rw [check_rate_limit_redis]
    obtain ⟨rsK, h1, h2, h3⟩ := ih (fun x hx => ht x (by simp [hx]))
      ((check_redis_limit identifier (tier_config tier) tier t rs0).2) fb0
    refine ⟨rsK, by rw [hstep]; exact h1, ?_, ?_⟩
    · intro hmin
      rw [h2 hmin]
      have hcm := crl_counts_min identifier (tier_config tier) tier t rs0
      rw [ht0] at hcm
      rw [hcm]
      rcases hsome : truthyNat (tier_config tier).requests_per_minute with _ | n
      · rw [hsome] at hmin
        simp at hmin
      · simp only [List.length_cons]
        omega
    · intro k
      have hle1 := crl_counts_le identifier (tier_config tier) tier t rs0 k
      have hle2 := h3 k
      simp only [List.length_cons]
      omega

/-- **C4**: window boundary and window precedence.  (i) For a tier whose
config sets `requests_per_minute = N` (its other window limits, when
present, at least `N`), with the store working and all counters fresh: after
any number `k < N` of prior calls in the same minute bucket the next call is
allowed (`None`), and after exactly `N` prior calls the next call — the
(N+1)-th — is rejected with `exceeded = true`, `window = "minute"`,
`count = N + 1`, `limit = N`, `reset_time` the start of the next minute
bucket, and `retry_after = reset_time - current_time`.  (ii) The rejection
reports the first exceeded window entry of the results dict, and (iii) that
dict's entries are always in the fixed minute, hour, day evaluation order —
so simultaneous exceedances report the first exceeded window in that order. -/
theorem C4_minute_window_boundary :
    (∀ (identifier : String) (tier : RateLimitTier) (cfg : RateLimitConfig)
       (N m : Nat) (times : List Nat) (t' : Nat) (rs0 : RedisStore)
       (fb0 : LocalFallback),
      RATE_LIMIT_CONFIGS tier = some cfg →
      truthyNat cfg.requests_per_minute = some N →
      (∀ h, truthyNat cfg.requests_per_hour = some h → N ≤ h) →
      (∀ d, truthyNat cfg.requests_per_day = some d → N ≤ d) →
      (∀ w, rs0.counts (get_key identifier tier w) = 0) →
      (∀ t ∈ times, t / 60 = m) → t' / 60 = m →
      (times.length < N →
        (check_rate_limit identifier tier t'
          (runCalls (times.map fun t => (identifier, tier, t))
            ⟨some rs0, false, fb0⟩)).1 = Option.none) ∧
      (times.length = N →
        (check_rate_limit identifier tier t'
          (runCalls (times.map fun t => (identifier, tier, t))
            ⟨some rs0, false, fb0⟩)).1 =
          some ⟨true, "minute", N + 1, N, (m + 1) * 60,
            ((m + 1) * 60 : Int) - (t' : Int)⟩)) ∧
    (∀ (now : Nat) (results : List (String × WindowData)),
      (findExceeded now results).map RejectInfo.window =
        (results.find? fun e => e.2.exceeded).map Prod.fst) ∧
    (∀ (identifier : String) (config : RateLimitConfig) (tier : RateLimitTier)
       (now : Nat) (s : RedisStore),
      ((check_redis_limit identifier config tier now s).1).map Prod.fst =
        (match truthyNat config.requests_per_minute with
         | some _ => ["minute"]
         | none => []) ++
        (match truthyNat config.requests_per_hour with
         | some _ => ["hour"]
         | none => []) ++
        (match truthyNat config.requests_per_day with
         | some _ => ["day"]
         | none => [])) := by
  refine ⟨?_, findExceeded_window, crl_window_order⟩
  intro identifier tier cfg N m times t' rs0 fb0 hcfg hN hh hd hfresh htimes ht'
  have hc : tier_config tier = cfg := by
    have h := hcfg
    unfold RATE_LIMIT_CONFIGS at h
    exact Option.some.inj h
  obtain ⟨rsK, hrun, hmin, hle⟩ := runCalls_redis_counts identifier tier m times
    htimes rs0 fb0
  rw [hc] at hmin
  have hkm : rsK.counts (get_key identifier tier ("min:" ++ natStr m)) =
      times.length := by
    rw [hmin (by rw [hN]; rfl), hfresh]
    exact Nat.zero_add _
  have hkh : rsK.counts (get_key identifier tier ("hour:" ++ natStr (t' / 3600))) ≤
      times.length := by
    have := hle (get_key identifier tier ("hour:" ++ natStr (t' / 3600)))
    rw [hfresh] at this
    omega
  have hkd : rsK.counts (get_key identifier tier ("day:" ++ natStr (t' / 86400))) ≤
      times.length := by
    have := hle (get_key identifier tier ("day:" ++ natStr (t' / 86400)))
    rw [hfresh] at this
    omega
  rw [hrun, check_rate_limit_redis, hc]
  simp only
  rw [crl_results identifier cfg tier t' rsK, hN, ht', hkm]
  constructor
  · intro hlen
    rcases h2 : truthyNat cfg.requests_per_hour with _ | nh <;>
      rcases h3 : truthyNat cfg.requests_per_day with _ | nd <;>
        simp only [List.nil_append, List.append_nil, List.cons_append,
          List.singleton_append]
    · rw [findExceeded_cons_false _ _ _ _ (decide_eq_false (by omega))]
      rfl
    · rw [findExceeded_cons_false _ _ _ _ (decide_eq_false (by omega)),
        findExceeded_cons_false _ _ _ _
          (decide_eq_false (by have := hd nd h3; omega))]
      rfl
    · rw [findExceeded_cons_false _ _ _ _ (decide_eq_false (by omega)),
        findExceeded_cons_false _ _ _ _
          (decide_eq_false (by have := hh nh h2; omega))]
      rfl
    · rw [findExceeded_cons_false _ _ _ _ (decide_eq_false (by omega)),
        findExceeded_cons_false _ _ _ _
          (decide_eq_false (by have := hh nh h2; omega)),
        findExceeded_cons_false _ _ _ _
          (decide_eq_false (by have := hd nd h3; omega))]
      rfl
  · intro hlen
    subst hlen
    rcases h2 : truthyNat cfg.requests_per_hour with _ | nh <;>
      rcases h3 : truthyNat cfg.requests_per_day with _ | nd <;>
        simp only [List.nil_append, List.append_nil, List.cons_append,
          List.singleton_append] <;>
      rw [findExceeded_cons_true _ _ _ _ (decide_eq_true (by omega))]
    all_goals rfl

/-- **C4** witness: tier `billing` (5/minute), client `"10.0.0.5"`, five
prior calls in minute bucket 0 on a fresh store; the sixth call is rejected
with window `"minute"`, count 6, limit 5, reset time 60, retry-after 55. -/
theorem C4_witness :
    RATE_LIMIT_CONFIGS RateLimitTier.BILLING_OPERATIONS =
      some (mkRateLimitConfig (some 5) Option.none Option.none (some 3)) ∧
    truthyNat (mkRateLimitConfig (some 5) Option.none Option.none
      (some 3)).requests_per_minute = some 5 ∧
    (∀ t ∈ ([0, 1, 2, 3, 4] : List Nat), t / 60 = 0) ∧
    (check_rate_limit "10.0.0.5" RateLimitTier.BILLING_OPERATIONS 5
      (runCalls (([0, 1, 2, 3, 4] : List Nat).map
        (fun t => ("10.0.0.5", RateLimitTier.BILLING_OPERATIONS, t)))
        ⟨some ⟨fun _ => 0, fun _ => Option.none⟩, false, []⟩)).1 =
      some ⟨true, "minute", 6, 5, 60, 55⟩ := by
  refine ⟨rfl, rfl, by decide, ?_⟩
  exact (C4_minute_window_boundary.1 "10.0.0.5" RateLimitTier.BILLING_OPERATIONS
    (mkRateLimitConfig (some 5) Option.none Option.none (some 3)) 5 0
    [0, 1, 2, 3, 4] 5 ⟨fun _ => 0, fun _ => Option.none⟩ [] rfl rfl
    (fun h hh => Option.noConfusion hh)
    (fun d hd => Option.noConfusion hd)
    (fun w => rfl) (by decide) (by decide)).2 rfl

/-- A truthy `requests_per_minute` limit is positive. -/
theorem truthyNat_pos {o : Option Nat} {N : Nat} (h : truthyNat o = some N) :
    1 ≤ N := by
  rcases o with _ | n
  · simp [truthyNat] at h
  · rcases n with _ | k
    · simp [truthyNat] at h
    · simp [truthyNat] at h
      omega

/-- `_check_local_fallback` from an empty fallback dict: the identifier entry
and the current minute bucket are created and the count becomes 1. -/
theorem clf_base (identifier : String) (config : RateLimitConfig)
    (tier : RateLimitTier) (t : Nat) (N : Nat)
    (hN : truthyNat config.requests_per_minute = some N) :
    check_local_fallback identifier config tier t [] =
      ([("minute", ⟨1, N, decide (1 > N), (t / 60 + 1) * 60⟩)],
       [(identifier, [(tier.value ++ "_min_" ++ natStr (t / 60), 1)])]) := by
  unfold check_local_fallback
  simp [hN, List.lookup, assocSet]

/-- `_check_local_fallback` when the identifier already holds the current
minute bucket at count `c0`: the count becomes `c0 + 1`. -/
theorem clf_step (identifier : String) (config : RateLimitConfig)
    (tier : RateLimitTier) (t : Nat) (N c0 : Nat)
    (hN : truthyNat config.requests_per_minute = some N) :
    check_local_fallback identifier config tier t
      [(identifier, [(tier.value ++ "_min_" ++ natStr (t / 60), c0)])] =
      ([("minute", ⟨c0 + 1, N, decide (c0 + 1 > N), (t / 60 + 1) * 60⟩)],
       [(identifier, [(tier.value ++ "_min_" ++ natStr (t / 60), c0 + 1)])]) := by
  unfold check_local_fallback
  simp [hN, List.lookup, assocSet]

/-- Fallback-dict evolution across same-client, same-tier, same-bucket calls
in store-failure mode, starting from an existing bucket entry. -/
theorem runCalls_fallback_from (identifier : String) (tier : RateLimitTier)
    (m N : Nat)
    (hN : truthyNat (tier_config tier).requests_per_minute = some N) :
    ∀ (times : List Nat), (∀ t ∈ times, t / 60 = m) →
    ∀ (rs0 : RedisStore) (c0 : Nat),
    runCalls (times.map fun t => (identifier, tier, t))
      ⟨some rs0, true,
       [(identifier, [(tier.value ++ "_min_" ++ natStr m, c0)])]⟩ =
      ⟨some rs0, true,
       [(identifier, [(tier.value ++ "_min_" ++ natStr m, c0 + times.length)])]⟩ := by
  intro times
  induction times with
  | nil => intro _ rs0 c0; rfl
  | cons t rest ih =>
    intro ht rs0 c0
    have ht0 : t / 60 = m := ht t (by simp)
    have hstep :
        runCalls ((t :: rest).map fun t => (identifier, tier, t))
          ⟨some rs0, true,
           [(identifier, [(tier.value ++ "_min_" ++ natStr m, c0)])]⟩ =
        runCalls (rest.map fun t => (identifier, tier, t))
          ⟨some rs0, true,
           [(identifier, [(tier.value ++ "_min_" ++ natStr m, c0 + 1)])]⟩ := by
      simp only [List.map_cons, runCalls, List.foldl_cons]
      rw [check_rate_limit_fails]
      have hcl := clf_step identifier (tier_config tier) tier t N c0 hN
      rw [ht0] at hcl
      rw [hcl]
    rw [hstep, ih (fun x hx => ht x (by simp [hx])) rs0 (c0 + 1)]
    have : c0 + 1 + rest.length = c0 + (rest.length + 1) := by omega
    rw [this]
    rfl

/-- **C6**: when every backing-store operation raises, `check_rate_limit`
substitutes the local in-memory fallback (the Lean embedding is total, so no
exception reaches the caller, and the Redis store is left untouched — in
particular no request is rejected merely because the store was unreachable:
the outcome depends only on the fallback minute counter).  For a tier with
`requests_per_minute = N`, in a single-process run from an empty fallback,
each of the first `N` requests of one client in one minute bucket is still
allowed and the (N+1)-th is rejected on the minute window — the only window
the fallback enforces. -/
theorem C6_store_failure_fallback
    (identifier : String) (tier : RateLimitTier) (cfg : RateLimitConfig)
    (N m : Nat) (times : List Nat) (t' : Nat) (rs0 : RedisStore)
    (hcfg : RATE_LIMIT_CONFIGS tier = some cfg)
    (hN : truthyNat cfg.requests_per_minute = some N)
    (htimes : ∀ t ∈ times, t / 60 = m) (ht' : t' / 60 = m) :
    (runCalls (times.map fun t => (identifier, tier, t))
      ⟨some rs0, true, []⟩).redis_client = some rs0 ∧
    (times.length < N →
      (check_rate_limit identifier tier t'
        (runCalls (times.map fun t => (identifier, tier, t))
          ⟨some rs0, true, []⟩)).1 = Option.none) ∧
    (times.length = N →
      (check_rate_limit identifier tier t'
        (runCalls (times.map fun t => (identifier, tier, t))
          ⟨some rs0, true, []⟩)).1 =
        some ⟨true, "minute", N + 1, N, (m + 1) * 60,
          ((m + 1) * 60 : Int) - (t' : Int)⟩) := by
  have hc : tier_config tier = cfg := by
    have h := hcfg
    unfold RATE_LIMIT_CONFIGS at h
    exact Option.some.inj h
  have hN' : truthyNat (tier_config tier).requests_per_minute = some N := by
    rw [hc]; exact hN
  have hpos : 1 ≤ N := truthyNat_pos hN
  cases times with
  | nil =>
    refine ⟨rfl, ?_, ?_⟩
    · intro _
      rw [show runCalls (([] : List Nat).map fun t => (identifier, tier, t))
          ⟨some rs0, true, []⟩ = ⟨some rs0, true, []⟩ from rfl]
      rw [check_rate_limit_fails]
      have hcl := clf_base identifier (tier_config tier) tier t' N hN'
      rw [ht'] at hcl
      rw [hcl]
      simp only
      rw [findExceeded_cons_false _ _ _ _ (decide_eq_false (by omega))]
      rfl
    · intro hlen
      simp only [List.length_nil] at hlen
      omega
  | cons t rest =>
    have ht0 : t / 60 = m := htimes t (by simp)
    have hfirst :
        runCalls ((t :: rest).map fun t => (identifier, tier, t))
          ⟨some rs0, true, []⟩ =
        ⟨some rs0, true,
         [(identifier, [(tier.value ++ "_min_" ++ natStr m, 1 + rest.length)])]⟩ := by
      simp only [List.map_cons, runCalls, List.foldl_cons]
      rw [check_rate_limit_fails]
      have hcl := clf_base identifier (tier_config tier) tier t N hN'
      rw [ht0] at hcl
      rw [hcl]
      exact runCalls_fallback_from identifier tier m N hN' rest
        (fun x hx => htimes x (by simp [hx])) rs0 1
    have hlen1 : (t :: rest).length = 1 + rest.length := by
      simp [Nat.add_comm]
    refine ⟨by rw [hfirst], ?_, ?_⟩
    · intro hlt
      rw [hfirst, check_rate_limit_fails]
      have hcl := clf_step identifier (tier_config tier) tier t' N
        (1 + rest.length) hN'
      rw [ht'] at hcl
      rw [hcl]
      simp only
      rw [findExceeded_cons_false _ _ _ _ (decide_eq_false (by
        rw [hlen1] at hlt
        omega))]
      rfl
    · intro hlen
      rw [hfirst, check_rate_limit_fails]
      have hcl := clf_step identifier (tier_config tier) tier t' N
        (1 + rest.length) hN'
      rw [ht'] at hcl
      rw [hcl]
      simp only
      rw [hlen1] at hlen
      rw [findExceeded_cons_true _ _ _ _ (decide_eq_true (by omega))]
      have hcount : 1 + rest.length + 1 = N + 1 := by omega
      simp [hcount]

/-- **C6** witness: tier `billing` (5/minute) with a failing store; five
calls in minute bucket 0 from an empty fallback, then the sixth call at
`t = 5` is rejected with count 6, limit 5, retry-after 55, and the Redis
store value is untouched. -/
theorem C6_witness :
    RATE_LIMIT_CONFIGS RateLimitTier.BILLING_OPERATIONS =
      some (mkRateLimitConfig (some 5) Option.none Option.none (some 3)) ∧
    truthyNat (mkRateLimitConfig (some 5) Option.none Option.none
      (some 3)).requests_per_minute = some 5 ∧
    (∀ t ∈ ([0, 1, 2, 3, 4] : List Nat), t / 60 = 0) ∧
    (runCalls (([0, 1, 2, 3, 4] : List Nat).map
      (fun t => ("10.0.0.5", RateLimitTier.BILLING_OPERATIONS, t)))
      ⟨some ⟨fun _ => 0, fun _ => Option.none⟩, true, []⟩).redis_client =
      some ⟨fun _ => 0, fun _ => Option.none⟩ ∧
    (check_rate_limit "10.0.0.5" RateLimitTier.BILLING_OPERATIONS 5
      (runCalls (([0, 1, 2, 3, 4] : List Nat).map
        (fun t => ("10.0.0.5", RateLimitTier.BILLING_OPERATIONS, t)))
        ⟨some ⟨fun _ => 0, fun _ => Option.none⟩, true, []⟩)).1 =
      some ⟨true, "minute", 6, 5, 60, 55⟩ := by
  have h := C6_store_failure_fallback "10.0.0.5" RateLimitTier.BILLING_OPERATIONS
    (mkRateLimitConfig (some 5) Option.none Option.none (some 3)) 5 0
    [0, 1, 2, 3, 4] 5 ⟨fun _ => 0, fun _ => Option.none⟩ rfl rfl
    (by decide) (by decide)
  exact ⟨rfl, rfl, by decide, h.1, h.2.2 rfl⟩

/-- Every key `_check_redis_limit` can touch has the shape
`rate_limit:<tier>:<identifier>:<label>:<bucket>`. -/
theorem touchedKeys_shape (i : String) (t : RateLimitTier) (now : Nat)
    (k : String) (h : k ∈ touchedKeys i t now) :
    ∃ la n, (la = "min" ∨ la = "hour" ∨ la = "day") ∧
      k = get_key i t (la ++ ":" ++ natStr n) := by
  simp only [touchedKeys, List.mem_cons, List.not_mem_nil, or_false] at h
  rcases h with h | h | h
  · exact ⟨"min", now / 60, Or.inl rfl, h⟩
  · exact ⟨"hour", now / 3600, Or.inr (Or.inl rfl), h⟩
  · exact ⟨"day", now / 86400, Or.inr (Or.inr rfl), h⟩

/-- For a different client identifier or a different tier, the touched key
sets are disjoint (the key embeds both the tier value and the identifier). -/
theorem touchedKeys_disjoint (a b : String) (ta tb : RateLimitTier)
    (t t' : Nat) (hne : b ≠ a ∨ tb ≠ ta) :
    ∀ k ∈ touchedKeys b tb t', k ∉ touchedKeys a ta t := by
  intro k hk hk'
  obtain ⟨lb, nb, hlb, rfl⟩ := touchedKeys_shape b tb t' k hk
  obtain ⟨la, na, hla, heq⟩ := touchedKeys_shape a ta t _ hk'
  rcases hne with h | h
  · exact get_key_ne b a tb ta lb la nb na hlb hla (Or.inl h) heq
  · exact get_key_ne b a tb ta lb la nb na hlb hla (Or.inr (Or.inl h)) heq

/-- The results dict of `_check_redis_limit` depends only on the values of
the call's own three window counters. -/
theorem crl_results_congr (identifier : String) (config : RateLimitConfig)
    (tier : RateLimitTier) (now : Nat) (rs1 rs2 : RedisStore)
    (h : ∀ k ∈ touchedKeys identifier tier now, rs1.counts k = rs2.counts k) :
    (check_redis_limit identifier config tier now rs1).1 =
      (check_redis_limit identifier config tier now rs2).1 := by
  rw [crl_results, crl_results]
  rw [h (get_key identifier tier ("min:" ++ natStr (now / 60)))
      (by simp [touchedKeys]),
    h (get_key identifier tier ("hour:" ++ natStr (now / 3600)))
      (by simp [touchedKeys]),
    h (get_key identifier tier ("day:" ++ natStr (now / 86400)))
      (by simp [touchedKeys])]

/-- **C7**: isolation of rate-limit state.  For a client `b` and tier `tb`,
any sequence of `check_rate_limit` calls (working store) each made by a
different client or under a different tier leaves every store counter key of
`(b, tb)` unchanged — the touched key sets are disjoint because every key
embeds both the tier value and the client identifier — and therefore leaves
the allowed/rejected outcome of `b`'s next call under `tb` exactly what it
would have been without those calls.  Instantiating the per-call hypothesis
with a fixed other client `a ≠ b` and `tb` gives client isolation; with the
same client and a fixed other tier it gives tier isolation. -/
theorem C7_rate_limit_isolation
    (b : String) (tb : RateLimitTier) (calls : List (String × RateLimitTier × Nat))
    (hcalls : ∀ c ∈ calls, c.1 ≠ b ∨ c.2.1 ≠ tb)
    (rs0 : RedisStore) (fb0 : LocalFallback) (t' : Nat) :
    ∃ rs1,
      runCalls calls ⟨some rs0, false, fb0⟩ = ⟨some rs1, false, fb0⟩ ∧
      (∀ k ∈ touchedKeys b tb t', rs1.counts k = rs0.counts k) ∧
      (check_rate_limit b tb t' (runCalls calls ⟨some rs0, false, fb0⟩)).1 =
        (check_rate_limit b tb t' ⟨some rs0, false, fb0⟩).1 := by
  induction calls generalizing rs0 with
  | nil => exact ⟨rs0, rfl, fun k _ => rfl, rfl⟩
  | cons c rest ih =>
    obtain ⟨a, ta, t⟩ := c
    have hne : a ≠ b ∨ ta ≠ tb := hcalls (a, ta, t) (by simp)
    have hne' : b ≠ a ∨ tb ≠ ta := by
      rcases hne with h | h
      · exact Or.inl h.symm
      · exact Or.inr h.symm
    have hstep :
        runCalls ((a, ta, t) :: rest) ⟨some rs0, false, fb0⟩ =
        runCalls rest
          ⟨some (check_redis_limit a (tier_config ta) ta t rs0).2, false, fb0⟩ := by
      simp only [runCalls, List.foldl_cons]
      rw [check_rate_limit_redis]
    have hframe : ∀ k ∈ touchedKeys b tb t',
        ((check_redis_limit a (tier_config ta) ta t rs0).2).counts k =
          rs0.counts k := by
      intro k hk
      exact crl_counts_frame a (tier_config ta) ta t rs0 k
        (touchedKeys_disjoint a b ta tb t t' hne' k hk)
    obtain ⟨rs1, hrun, hpres, _⟩ := ih (fun c hc => hcalls c (by simp [hc]))
      ((check_redis_limit a (tier_config ta) ta t rs0).2)
    have hpres0 : ∀ k ∈ touchedKeys b tb t', rs1.counts k = rs0.counts k := by
      intro k hk
      rw [hpres k hk, hframe k hk]
    refine ⟨rs1, by rw [hstep]; exact hrun, hpres0, ?_⟩
    rw [hstep, hrun, check_rate_limit_redis, check_rate_limit_redis]
    simp only
    rw [crl_results_congr b (tier_config tb) tb t' rs1 rs0 hpres0]

/-- **C7** witness: client `"1.1.1.1"` exhausting `billing` (six calls in one
minute) leaves client `"2.2.2.2"`'s `billing` counters untouched and its
next outcome unchanged. -/
theorem C7_witness :
    (∀ c ∈ (List.range 6).map
        (fun i => ("1.1.1.1", RateLimitTier.BILLING_OPERATIONS, i)),
      c.1 ≠ "2.2.2.2" ∨ c.2.1 ≠ RateLimitTier.BILLING_OPERATIONS) ∧
    ∃ rs1,
      runCalls ((List.range 6).map
          (fun i => ("1.1.1.1", RateLimitTier.BILLING_OPERATIONS, i)))
        ⟨some ⟨fun _ => 0, fun _ => Option.none⟩, false, []⟩ =
        ⟨some rs1, false, []⟩ ∧
      (∀ k ∈ touchedKeys "2.2.2.2" RateLimitTier.BILLING_OPERATIONS 7,
        rs1.counts k = (⟨fun _ => 0, fun _ => Option.none⟩ : RedisStore).counts k) ∧
      (check_rate_limit "2.2.2.2" RateLimitTier.BILLING_OPERATIONS 7
        (runCalls ((List.range 6).map
            (fun i => ("1.1.1.1", RateLimitTier.BILLING_OPERATIONS, i)))
          ⟨some ⟨fun _ => 0, fun _ => Option.none⟩, false, []⟩)).1 =
        (check_rate_limit "2.2.2.2" RateLimitTier.BILLING_OPERATIONS 7
          ⟨some ⟨fun _ => 0, fun _ => Option.none⟩, false, []⟩).1 :=
  ⟨by decide,
   C7_rate_limit_isolation "2.2.2.2" RateLimitTier.BILLING_OPERATIONS
     ((List.range 6).map (fun i => ("1.1.1.1", RateLimitTier.BILLING_OPERATIONS, i)))
     (by decide) ⟨fun _ => 0, fun _ => Option.none⟩ [] 7⟩
